import Mathlib

/-!
Verification of the monashautomation/inventory-system printer-telemetry and
dispatch core against its natural-language specification.

The TypeScript sources are shallowly embedded: JS numbers that can only be
copied (never computed with) are modelled as `JsNum` (an exact rational plus
the IEEE special values NaN/±Infinity); JSON values as the inductive `JVal`;
JS `Map`s as insertion-ordered association lists; each `async` route's
post-dispatch database update as a pure function on the job row.
-/

namespace InventorySystem

/-! ## JS numeric model -/

/-- A JavaScript number as observed by this codebase: an exact rational, or
one of the IEEE-754 special values.  The embedded code only copies, compares
and parses numbers, so exact rationals are a faithful carrier. -/
inductive JsNum where
  | nan
  | inf
  | neginf
  | val (q : Rat)
deriving DecidableEq

def JsNum.isNaN : JsNum → Bool
  | .nan => true
  | _ => false

def JsNum.isFinite : JsNum → Bool
  | .val _ => true
  | _ => false

/-- Digit run → natural value (base 10). -/
def digitsVal (ds : List Char) : Nat :=
  ds.foldl (fun acc c => acc * 10 + (c.toNat - 48)) 0

/-- Split a leading run of decimal digits. -/
def takeDigits (cs : List Char) : List Char × List Char :=
  (cs.takeWhile Char.isDigit, cs.dropWhile Char.isDigit)

/-- Decimal value of `intDigits . fracDigits × 10 ^ exp`, built with `mkRat`
so concrete parses compute in the kernel. -/
def decimalValue (intDigits fracDigits : List Char) (exp : Int) : Rat :=
  let mantissa : Int := digitsVal intDigits * 10 ^ fracDigits.length + digitsVal fracDigits
  let e : Int := exp - fracDigits.length
  if 0 ≤ e then mkRat (mantissa * 10 ^ e.toNat) 1 else mkRat mantissa (10 ^ (-e).toNat)

/-- Parse an optional ECMAScript ExponentPart (`e`/`E`, sign, digits) at the
head of the input; an incomplete exponent is not consumed (longest-valid-prefix
semantics of `parseFloat`). -/
def parseExponent (cs : List Char) : Int :=
  match cs with
  | 'e' :: rest | 'E' :: rest =>
    let (negE, rest1) :=
      match rest with
      | '+' :: r => (false, r)
      | '-' :: r => (true, r)
      | _ => (false, rest)
    let (ed, _) := takeDigits rest1
    if ed.isEmpty then 0
    else if negE then -(digitsVal ed : Int) else (digitsVal ed : Int)
  | _ => 0

/-- The unsigned part of ECMAScript `StrDecimalLiteral`:
`Infinity`, `Digits [. Digits?] Exp?`, or `. Digits Exp?`.  Returns `none`
when no valid prefix exists (JS `NaN`). -/
def parseUnsignedDecimal (cs : List Char) : Option JsNum :=
  if ("Infinity".data).isPrefixOf cs then some .inf
  else
    let (intD, r1) := takeDigits cs
    if intD.isEmpty then
      match r1 with
      | '.' :: r2 =>
        let (fracD, r3) := takeDigits r2
        if fracD.isEmpty then none
        else some (.val (decimalValue [] fracD (parseExponent r3)))
      | _ => none
    else
      match r1 with
      | '.' :: r2 =>
        let (fracD, r3) := takeDigits r2
        some (.val (decimalValue intD fracD (parseExponent r3)))
      | _ => some (.val (decimalValue intD [] (parseExponent r1)))

def JsNum.negate : JsNum → JsNum
  | .nan => .nan
  | .inf => .neginf
  | .neginf => .inf
  | .val q => .val (-q)

/-- ECMAScript `parseFloat`: skip leading whitespace, optional sign, then the
longest prefix satisfying `StrDecimalLiteral`; `NaN` if none. -/
def jsParseFloat (s : String) : JsNum :=
  let cs := s.data.dropWhile Char.isWhitespace
  match cs with
  | '+' :: rest => (parseUnsignedDecimal rest).getD .nan
  | '-' :: rest => ((parseUnsignedDecimal rest).map JsNum.negate).getD .nan
  | _ => (parseUnsignedDecimal cs).getD .nan

/-- ECMAScript `parseInt(s, 10)`: skip whitespace, optional sign, a run of
decimal digits; `none` models `NaN`. -/
def jsParseInt (s : String) : Option Int :=
  let cs := s.data.dropWhile Char.isWhitespace
  let (neg, cs1) :=
    match cs with
    | '+' :: r => (false, r)
    | '-' :: r => (true, r)
    | _ => (false, cs)
  let (ds, _) := takeDigits cs1
  if ds.isEmpty then none
  else some (if neg then -(digitsVal ds : Int) else (digitsVal ds : Int))

/-! ## JSON value model -/

/-- A parsed JSON value (`JSON.parse` output), as consumed by the collectors.
JSON cannot encode NaN or Infinity, so numbers are plain rationals. -/
inductive JVal where
  | jstr (s : String)
  | jnum (q : Rat)
  | jbool (b : Bool)
  | jnull
  | jarr (elems : List JVal)
  | jobj (fields : List (String × JVal))

abbrev JObj := List (String × JVal)

/-- First-match association lookup (JS object property read). -/
def jLookup : JObj → String → Option JVal
  | [], _ => none
  | (k, v) :: rest, key => if k = key then some v else jLookup rest key

/-- `typeof v === "string"` narrowing. -/
def jStr? : Option JVal → Option String
  | some (.jstr s) => some s
  | _ => none

/-- `typeof v === "number"` narrowing. -/
def jNum? : Option JVal → Option Rat
  | some (.jnum q) => some q
  | _ => none

/-- `Array.isArray(v)` narrowing. -/
def jArr? : Option JVal → Option (List JVal)
  | some (.jarr xs) => some xs
  | _ => none

/-- `v && typeof v === "object"`: true for objects and arrays, false for
`null` and primitives. -/
def isObjLike : JVal → Bool
  | .jobj _ => true
  | .jarr _ => true
  | _ => false

def objLike? : Option JVal → Option JVal
  | some v => if isObjLike v then some v else none
  | none => none

/-- Property access `v.k` on an arbitrary value: fields of objects, otherwise
`undefined` (modelled as `none`). -/
def dotField (v : JVal) (k : String) : Option JVal :=
  match v with
  | .jobj fields => jLookup fields k
  | _ => none

/-- `Object.keys(v)`: field names of objects, index strings of arrays. -/
def jKeys : JVal → List String
  | .jobj fields => fields.map Prod.fst
  | .jarr xs => (List.range xs.length).map (fun i => toString i)
  | _ => []

/-! ## Sample formatter coercions (src/server/metrics/format.ts) -/

/-- JS `String.prototype.trim`: drop whitespace from both ends. -/
def jsTrim (s : String) : String :=
  ⟨((s.data.dropWhile Char.isWhitespace).reverse.dropWhile Char.isWhitespace).reverse⟩

/-- Model of the regex replace `value.replace(/[a-zA-Z%]+$/, "")`: remove the
maximal trailing run of ASCII letters and `%`. -/
def stripTrailingUnits (s : String) : String :=
  ⟨(s.data.reverse.dropWhile (fun c => c.isAlpha || c = '%')).reverse⟩

/-- `safeFloat64` from src/server/metrics/format.ts:96-103. -/
def safeFloat64 : JVal → JsNum
  | .jnum q => .val q
  | .jstr s =>
    let cleaned := jsTrim (stripTrailingUnits s)
    if cleaned = "" then .nan else jsParseFloat cleaned
  | _ => .nan

/-! ## Bambu collector coercions (src/server/metrics/bambuCollector.ts) -/

/-- Model of `value.replace(/dBm$/i, "")`: remove one case-insensitive
`dBm` suffix. -/
def stripDbmSuffix (s : String) : String :=
  match s.data.reverse with
  | m :: b :: d :: rest =>
    if m.toLower = 'm' && b.toLower = 'b' && d.toLower = 'd' then ⟨rest.reverse⟩ else s
  | _ => s

/-- Model of `value.replace(/%$/, "")`: remove one trailing `%`. -/
def stripPercentSuffix (s : String) : String :=
  match s.data.reverse with
  | '%' :: rest => ⟨rest.reverse⟩
  | _ => s

/-- `sf64` from src/server/metrics/bambuCollector.ts:38-45. -/
def sf64 : JVal → JsNum
  | .jnum q => .val q
  | .jstr s =>
    let cleaned := jsTrim (stripPercentSuffix (stripDbmSuffix s))
    if cleaned = "" then .val 0
    else
      match jsParseFloat cleaned with
      | .nan => .val 0
      | n => n
  | _ => .val 0

/-- `sbool` from src/server/metrics/bambuCollector.ts:47-54. -/
def sbool : JVal → JsNum
  | .jbool b => .val (if b then 1 else 0)
  | .jnum q => .val (if q ≠ 0 then 1 else 0)
  | .jstr s =>
    if s.toLower = "true" ∨ s.toLower = "1" ∨ s.toLower = "enable" ∨ s.toLower = "on"
    then .val 1 else .val 0
  | _ => .val 0

/-- Spec-side restatement of the `safeFloat64` sentence: strip the trailing
unit run, then parse; NaN when empty after stripping. -/
def specStripAndParse (s : String) : JsNum :=
  let remainder := jsTrim (stripTrailingUnits s)
  if remainder = "" then .nan else jsParseFloat remainder

/-! ## Prusa state flags (src/server/metrics/prusaCollector.ts:117-132) -/

/-- The boolean state flags of a PrusaLink `/api/printer` payload. -/
structure PrusaStateFlags where
  operational : Bool
  paused : Bool
  printing : Bool
  cancelling : Bool
  pausing : Bool
  error : Bool
  sdReady : Bool
  closedOnError : Bool
  ready : Bool
  busy : Bool
  closedOrError : Bool
  finished : Bool
  prepared : Bool
deriving DecidableEq

/-- `getStateFlag` from src/server/metrics/prusaCollector.ts:117-132. -/
def getStateFlag (f : PrusaStateFlags) : Nat :=
  if f.operational then 1
  else if f.prepared then 2
  else if f.paused then 3
  else if f.printing then 4
  else if f.cancelling then 5
  else if f.pausing then 6
  else if f.error then 7
  else if f.sdReady then 8
  else if f.closedOrError || f.closedOnError then 9
  else if f.ready then 10
  else if f.busy then 11
  else if f.finished then 12
  else 0

/-- The spec's fixed priority order, as a list of flag readers. -/
def statePriorityList (f : PrusaStateFlags) : List Bool :=
  [f.operational, f.prepared, f.paused, f.printing, f.cancelling, f.pausing,
   f.error, f.sdReady, f.closedOrError || f.closedOnError, f.ready, f.busy, f.finished]

/-- Position (1-based) of the first `true` in a flag list; 0 when none. -/
def firstTrueAt : List Bool → Nat → Nat
  | [], _ => 0
  | b :: rest, i => if b then i else firstTrueAt rest (i + 1)

/-- Spec-side state flag: number of the first true flag in priority order. -/
def specStateFlag (f : PrusaStateFlags) : Nat :=
  firstTrueAt (statePriorityList f) 1

/-- A record with `printing` and `error` set and all higher-priority flags
clear (used by the spec's priority example). -/
def printingAndErrorFlags : PrusaStateFlags :=
  { operational := false, paused := false, printing := true, cancelling := false
    pausing := false, error := true, sdReady := false, closedOnError := false
    ready := false, busy := false, closedOrError := false, finished := false
    prepared := false }

end InventorySystem

namespace InventorySystem

/-- C9: `safeFloat64` strips a trailing run of letters and `%` and parses the
remainder as a float, returning NaN when the input is non-numeric or empty
after stripping; `safeFloat64("-47dBm") = -47`, `safeFloat64("100%") = 100`,
`safeFloat64("abc")` is NaN.  The embedding is a total Lean function, so it
cannot throw on any string input. -/
theorem c9_safeFloat64_strips_units_and_parses :
    safeFloat64 (.jstr "-47dBm") = .val (-47) ∧
    safeFloat64 (.jstr "100%") = .val 100 ∧
    (safeFloat64 (.jstr "abc")).isNaN = true ∧
    ∀ s : String, safeFloat64 (.jstr s) = specStripAndParse s := by
  refine ⟨by decide, by decide, by decide, fun s => ?_⟩
  simp [safeFloat64, specStripAndParse]

end InventorySystem

namespace InventorySystem

/-- C10 (counterexample): `sf64` is not total into finite numbers — the string
`"Infinity"` survives the `dBm`/`%` suffix strips and `parseFloat` parses the
ECMAScript `Infinity` literal, so `sf64("Infinity")` is `Infinity`, not a
finite (real) number. -/
theorem c10_sf64_infinity_not_finite :
    sf64 (.jstr "Infinity") = .inf ∧ (sf64 (.jstr "Infinity")).isFinite = false := by
  decide

/-- C10 (amended): `sf64` and `sbool` never return NaN on JSON inputs — every
unparseable, empty, or unrecognized input maps to 0, and `sbool` is total into
`{0, 1}` — but `sf64` is not total into finite numbers: strings that parse to
an infinite value (such as `"Infinity"`) pass through as Infinity. -/
theorem c10_sf64_sbool_never_nan :
    ∀ v : JVal, (sf64 v).isNaN = false ∧ (sbool v = .val 0 ∨ sbool v = .val 1) := by
  intro v
  refine ⟨?_, ?_⟩
  · cases v with
    | jstr s =>
      simp only [sf64]
      split
      · rfl
      · cases h : jsParseFloat (jsTrim (stripPercentSuffix (stripDbmSuffix s))) <;>
          simp [h, JsNum.isNaN]
    | jnum q => rfl
    | jbool b => rfl
    | jnull => rfl
    | jarr xs => rfl
    | jobj fields => rfl
  · cases v with
    | jstr s =>
      simp only [sbool]
      split <;> simp
    | jnum q =>
      simp only [sbool]
      split <;> simp
    | jbool b => cases b <;> simp [sbool]
    | jnull => simp [sbool]
    | jarr xs => simp [sbool]
    | jobj fields => simp [sbool]

/-- C8: `getStateFlag` returns the number of the first true flag in the fixed
priority order operational(1) > prepared(2) > paused(3) > printing(4) >
cancelling(5) > pausing(6) > error(7) > sdReady(8) >
closedOrError/closedOnError(9) > ready(10) > busy(11) > finished(12), and 0
when no flag is set; a record with `printing` and `error` both true (higher
priorities false) yields 4, never 7. -/
theorem c8_state_flag_priority :
    (∀ f : PrusaStateFlags, getStateFlag f = specStateFlag f) ∧
    getStateFlag printingAndErrorFlags = 4 := by
  refine ⟨fun f => ?_, by decide⟩
  simp only [getStateFlag, specStateFlag, statePriorityList, firstTrueAt]

end InventorySystem

namespace InventorySystem

/-! ## Prusa collector scrape (src/server/metrics/prusaCollector.ts:175-424) -/

/-- `job.job?.file` fields the collector reads. -/
structure PrusaJobFileInfo where
  name : String
  path : String
deriving DecidableEq

structure PrusaJobProgress where
  printTimeLeft : Rat
  completion : Rat
  printTime : Rat
deriving DecidableEq

/-- `/api/job` payload, restricted to the fields consumed by `scrapePrinter`
(`job.job?.file?.name/path` is read through optional chaining, so a `null`
job and a missing file collapse to `none`). -/
structure PrusaJobPayload where
  jobFile : Option PrusaJobFileInfo
  progress : Option PrusaJobProgress
deriving DecidableEq

/-- `telemetry` fields; the ones the code reads with `?? 0` / `?? ""` are
optional. -/
structure PrusaTelemetry where
  printSpeed : Option Rat
  material : Option String
  axisX : Option Rat
  axisY : Option Rat
  axisZ : Option Rat
deriving DecidableEq

structure PrusaTempPair where
  actual : Rat
  target : Rat
deriving DecidableEq

structure PrusaPrinterState where
  text : String
  flags : PrusaStateFlags
deriving DecidableEq

/-- `/api/printer` payload. -/
structure PrusaPrinterPayload where
  telemetry : PrusaTelemetry
  tool0 : PrusaTempPair
  bed : PrusaTempPair
  state : PrusaPrinterState
deriving DecidableEq

/-- `/api/version` payload. -/
structure PrusaVersionPayload where
  api : String
  server : String
  text : String
  original : String
  hostname : String
deriving DecidableEq

/-- `/api/v1/status` payload (`status.printer` fields the code reads). -/
structure PrusaStatusPayload where
  fanHotend : Rat
  fanPrint : Rat
  flow : Rat
  speed : Rat
deriving DecidableEq

/-- `/api/v1/info` payload. -/
structure PrusaInfoPayload where
  mmu : Bool
  name : String
  location : String
  nozzleDiameter : Rat
  serial : String
  hostname : String
deriving DecidableEq

/-- The model-name table `PRINTER_TYPES` (prusaCollector.ts:87-98). -/
def PRINTER_TYPES : List (String × String) :=
  [("PrusaMINI", "MINI"), ("PrusaMK4", "MK4"), ("PrusaXL", "XL"),
   ("PrusaLink I3MK3S", "I3MK3S"), ("PrusaLink I3MK3", "I3MK3"),
   ("PrusaLink I3MK25S", "I3MK25S"), ("PrusaLink I3MK25", "I3MK25"),
   ("prusa-sl1", "SL1"), ("prusa-sl1s", "SL1S"), ("Prusa_iX", "IX")]

def lookupTable : List (String × String) → String → Option String
  | [], _ => none
  | (k, v) :: rest, key => if k = key then some v else lookupTable rest key

/-- JS `||` on strings: the empty string is falsy. -/
def jsOrStr (a b : String) : String := if a = "" then b else a

/-- `detectPrinterModel` (prusaCollector.ts:103-113); the per-IP model cache
entry for this printer's address is passed in and the updated entry returned. -/
def detectPrinterModel (cache : Option String) (version : Option PrusaVersionPayload)
    (info : Option PrusaInfoPayload) : String × Option String :=
  match version with
  | none => (cache.getD "PRUSA", cache)
  | some ver =>
    let hostname := jsOrStr ver.original (jsOrStr ver.hostname
      (match info with | some i => i.hostname | none => ""))
    let detected := jsOrStr ((lookupTable PRINTER_TYPES hostname).getD "")
      (jsOrStr hostname "PRUSA")
    (detected, some detected)

/-- One accumulated metrics sample (`SampleEntry`). -/
structure Sample where
  metric : String
  help : String
  value : Rat
  labels : List (String × String)
deriving DecidableEq

/-- The outcome of the five endpoint fetches for one printer; `none` models a
failed fetch (`fetchEndpoint` returned `null`). -/
structure PrusaScrapeOracle where
  job : Option PrusaJobPayload
  printerData : Option PrusaPrinterPayload
  version : Option PrusaVersionPayload
  status : Option PrusaStatusPayload
  info : Option PrusaInfoPayload

def upSample (addr model name : String) (v : Rat) : Sample :=
  ⟨"prusa_up", "Whether the printer is reachable", v,
   [("printer_address", addr), ("printer_model", model), ("printer_name", name)]⟩

/-- `scrapePrinter` (prusaCollector.ts:175-424) as a pure function of the
fetch outcomes; returns the emitted samples and the updated model-cache entry
for this printer's address. -/
def scrapePrinter (name addr : String) (cache : Option String)
    (o : PrusaScrapeOracle) : List Sample × Option String :=
  let cachedModel := cache.getD "PRUSA"
  match o.job with
  | none => ([upSample addr cachedModel name 0], cache)
  | some job =>
    match o.printerData with
    | none => ([upSample addr cachedModel name 0], cache)
    | some pd =>
      match o.version with
      | none => ([upSample addr cachedModel name 0], cache)
      | some ver =>
        let mc := detectPrinterModel cache (some ver) o.info
        let model := mc.1
        let jobName := (job.jobFile.map PrusaJobFileInfo.name).getD ""
        let jobPath := (job.jobFile.map PrusaJobFileInfo.path).getD ""
        let common := fun (extra : List (String × String)) =>
          [("printer_address", addr), ("printer_model", model), ("printer_name", name),
           ("printer_job_name", jobName), ("printer_job_path", jobPath)] ++ extra
        let samples : List Sample :=
          [⟨"prusa_info", "Printer version and identity information", 1,
            common [("api_version", ver.api), ("server_version", ver.server),
                    ("version_text", ver.text),
                    ("prusalink_name", (o.info.map PrusaInfoPayload.name).getD ""),
                    ("printer_location", (o.info.map PrusaInfoPayload.location).getD ""),
                    ("serial_number", (o.info.map PrusaInfoPayload.serial).getD ""),
                    ("printer_hostname", (o.info.map PrusaInfoPayload.hostname).getD "")]⟩,
           ⟨"prusa_job", "Current print job information (1 = job active, 0 = no job)",
            if jobName ≠ "" then 1 else 0,
            [("printer_address", addr), ("printer_model", model), ("printer_name", name),
             ("printer_job_name", jobName), ("printer_job_path", jobPath)]⟩] ++
          (match o.status with
           | some st =>
             [⟨"prusa_fan_speed_rpm", "Fan speed in RPM", st.fanHotend, common [("fan", "hotend")]⟩,
              ⟨"prusa_fan_speed_rpm", "Fan speed in RPM", st.fanPrint, common [("fan", "print")]⟩,
              ⟨"prusa_print_flow_ratio", "Filament flow ratio (0.0–1.0)", st.flow / 100, common []⟩]
           | none => []) ++
          (match o.info with
           | some inf =>
             [⟨"prusa_nozzle_size_meters", "Selected nozzle diameter", inf.nozzleDiameter, common []⟩,
              ⟨"prusa_mmu", "Whether MMU is enabled (1 = yes, 0 = no)",
               if inf.mmu then 1 else 0, common []⟩]
           | none => []) ++
          [⟨"prusa_print_speed_ratio", "Current printer speed setting (0.0–1.0)",
            (pd.telemetry.printSpeed.getD 0) / 100, common []⟩,
           ⟨"prusa_print_time_seconds", "Current print elapsed time in seconds",
            ((job.progress.map PrusaJobProgress.printTime).getD 0), common []⟩,
           ⟨"prusa_printing_time_remaining_seconds", "Estimated remaining print time in seconds",
            ((job.progress.map PrusaJobProgress.printTimeLeft).getD 0), common []⟩,
           ⟨"prusa_printing_progress_ratio", "Print completion ratio (0.0–1.0)",
            ((job.progress.map PrusaJobProgress.completion).getD 0), common []⟩,
           ⟨"prusa_material_info", "Loaded filament info (0 = no filament)",
            if ((pd.telemetry.material.getD "").data.contains '-') then 0 else 1,
            common [("printer_filament", pd.telemetry.material.getD "")]⟩,
           ⟨"prusa_axis", "Axis position", pd.telemetry.axisX.getD 0, common [("printer_axis", "x")]⟩,
           ⟨"prusa_axis", "Axis position", pd.telemetry.axisY.getD 0, common [("printer_axis", "y")]⟩,
           ⟨"prusa_axis", "Axis position", pd.telemetry.axisZ.getD 0, common [("printer_axis", "z")]⟩,
           ⟨"prusa_temperature_celsius", "Current temperature in Celsius",
            pd.bed.actual, common [("printer_heated_element", "bed")]⟩,
           ⟨"prusa_temperature_celsius", "Current temperature in Celsius",
            pd.tool0.actual, common [("printer_heated_element", "tool0")]⟩,
           ⟨"prusa_temperature_target_celsius", "Target temperature in Celsius",
            pd.bed.target, common [("printer_heated_element", "bed")]⟩,
           ⟨"prusa_temperature_target_celsius", "Target temperature in Celsius",
            pd.tool0.target, common [("printer_heated_element", "tool0")]⟩,
           ⟨"prusa_status_info", "Printer state flag (1=Operational … 12=Finished, 0=Unknown)",
            (getStateFlag pd.state.flags : Nat), common [("printer_state", pd.state.text)]⟩,
           upSample addr model name 1]
        (samples, mc.2)

/-- The metric-name sequence a successful required phase emits, with the
status- and info-dependent entries present iff those optional fetches
succeeded. -/
def scrapeMetricNames (hasStatus hasInfo : Bool) : List String :=
  ["prusa_info", "prusa_job"] ++
  (if hasStatus then ["prusa_fan_speed_rpm", "prusa_fan_speed_rpm", "prusa_print_flow_ratio"] else []) ++
  (if hasInfo then ["prusa_nozzle_size_meters", "prusa_mmu"] else []) ++
  ["prusa_print_speed_ratio", "prusa_print_time_seconds",
   "prusa_printing_time_remaining_seconds", "prusa_printing_progress_ratio",
   "prusa_material_info", "prusa_axis", "prusa_axis", "prusa_axis",
   "prusa_temperature_celsius", "prusa_temperature_celsius",
   "prusa_temperature_target_celsius", "prusa_temperature_target_celsius",
   "prusa_status_info", "prusa_up"]

end InventorySystem

namespace InventorySystem

/-- C6: if any of the three required fetches (`/api/job`, `/api/printer`,
`/api/version`) fails, the scrape stops and yields exactly one sample,
`prusa_up = 0` labelled with the cached model; when the required fetches
succeed, failures of `/api/v1/status` or `/api/v1/info` are non-fatal: the
emitted metric sequence omits exactly the status-dependent (fan/flow) and
info-dependent (nozzle/mmu) samples respectively, everything else is emitted,
and the single `prusa_up` sample carries value 1. -/
theorem c6_prusa_required_fetch_failure :
    (∀ (name addr : String) (cache : Option String) (o : PrusaScrapeOracle),
      o.job = none ∨ o.printerData = none ∨ o.version = none →
      (scrapePrinter name addr cache o).1 = [upSample addr (cache.getD "PRUSA") name 0]) ∧
    (∀ (name addr : String) (cache : Option String) (j : PrusaJobPayload)
      (pd : PrusaPrinterPayload) (ver : PrusaVersionPayload)
      (st : Option PrusaStatusPayload) (inf : Option PrusaInfoPayload),
      ((scrapePrinter name addr cache ⟨some j, some pd, some ver, st, inf⟩).1.map Sample.metric
          = scrapeMetricNames st.isSome inf.isSome) ∧
      (((scrapePrinter name addr cache ⟨some j, some pd, some ver, st, inf⟩).1.filter
          (fun s => s.metric = "prusa_up")).map Sample.value = [1])) := by
  constructor
  · rintro name addr cache ⟨j, p, v, st, inf⟩ (h | h | h) <;> subst h
    · rfl
    · cases j <;> rfl
    · cases j <;> cases p <;> rfl
  · intro name addr cache j pd ver st inf
    cases st <;> cases inf <;>
      refine ⟨by simp [scrapePrinter, scrapeMetricNames, upSample], ?_⟩ <;>
      simp [scrapePrinter, upSample, List.filter]

/-- C6 witness: a concrete scrape whose `/api/job` fetch failed yields exactly
the single `prusa_up = 0` sample with the cached model label. -/
theorem c6_prusa_required_fetch_failure_witness :
    (scrapePrinter "PrinterA" "10.0.0.7" (some "MK4")
      ⟨none, none, none, none, none⟩).1 = [upSample "10.0.0.7" "MK4" "PrinterA" 0] :=
  c6_prusa_required_fetch_failure.1 "PrinterA" "10.0.0.7" (some "MK4")
    ⟨none, none, none, none, none⟩ (Or.inl rfl)

end InventorySystem

namespace InventorySystem

/-! ## Prusa dispatch upload probing (src/src/server/api/routers/print.ts:162-354) -/

/-- `sanitizeDbText` (print.ts:44-45): strip NUL characters, cap at 4000. -/
def sanitizeDbText (s : String) : String :=
  ⟨(s.data.filter (fun c => c ≠ Char.ofNat 0)).take 4000⟩

inductive HMethod where
  | put
  | post
deriving DecidableEq

def methodName : HMethod → String
  | .put => "PUT"
  | .post => "POST"

/-- One entry of `uploadEndpointCandidates` (print.ts:166-179). -/
structure UploadCandidate where
  path : String
  storage : String
  method : HMethod
deriving DecidableEq

/-- JS `Array.from(new Set(l))`: deduplicate keeping first occurrences. -/
def dedupFirstAux : List String → List String → List String
  | [], _ => []
  | x :: xs, seen =>
    if x ∈ seen then dedupFirstAux xs seen else x :: dedupFirstAux xs (x :: seen)

def dedupFirst (l : List String) : List String := dedupFirstAux l []

/-- `storageCandidates` (print.ts:162-164): dedup of the detected storage name
followed by the `"local"` and `"usb"` fallbacks, empty names filtered out. -/
def storageCandidates (prusaStorageName : String) : List String :=
  dedupFirst (([prusaStorageName, "local", "usb"]).filter (fun s => s ≠ ""))

/-- `uploadEndpointCandidates` (print.ts:166-179): per storage, PUT and POST
variants of the v1 and legacy file APIs, in source order. -/
def uploadEndpointCandidates (storages : List String) (encodedFilename : String) :
    List UploadCandidate :=
  storages.flatMap fun storage =>
    [⟨"/api/v1/files/" ++ storage ++ "/" ++ encodedFilename, storage, .put⟩,
     ⟨"/api/v1/files/" ++ storage, storage, .post⟩,
     ⟨"/api/files/" ++ storage ++ "/" ++ encodedFilename, storage, .put⟩,
     ⟨"/api/files/" ++ storage, storage, .post⟩]

/-- Outcome of one upload `fetch`: a thrown network error or an HTTP response. -/
inductive FetchOutcome where
  | netErr (msg : String)
  | resp (status : Nat) (body : String)
deriving DecidableEq

/-- `Response.ok`: status in 200..299. -/
def respOk (s : Nat) : Bool := decide (200 ≤ s) && decide (s ≤ 299)

/-- `shouldContinueProbe` (print.ts:251-257). -/
def shouldContinueProbe (m : HMethod) (s : Nat) : Bool :=
  (s == 404 || s == 410) || (s == 403) ||
    (m == HMethod.put &&
      ((s == 405 || s == 408 || s == 415 || s == 422) || decide (500 ≤ s)))

inductive UploadResult where
  | success (storage : String)
  | abort (message : String)
  | exhausted
deriving DecidableEq

def uploadAbortMessage (c : UploadCandidate) (s : Nat) (body : String) : String :=
  "Prusa upload failed (" ++ toString s ++ ") [" ++ methodName c.method ++ " " ++
    c.path ++ "]: " ++ sanitizeDbText body

/-- The upload probing loop (print.ts:193-265): try candidates in order; a
network error keeps probing; 2xx or 409 succeeds with that candidate's
storage; a recoverable status advances; anything else aborts with the
sanitized upload error. -/
def runUploadProbe : List (UploadCandidate × FetchOutcome) → UploadResult
  | [] => .exhausted
  | (_, .netErr _) :: rest => runUploadProbe rest
  | (c, .resp s body) :: rest =>
    if respOk s || s == 409 then .success c.storage
    else if shouldContinueProbe c.method s then runUploadProbe rest
    else .abort (uploadAbortMessage c s body)

/-- Per-candidate classification of the loop body, for stating the
continue/abort table. -/
inductive StepDecision where
  | succeed
  | advance
  | abortNow
deriving DecidableEq

def stepDecision (m : HMethod) : FetchOutcome → StepDecision
  | .netErr _ => .advance
  | .resp s _ =>
    if respOk s || s == 409 then .succeed
    else if shouldContinueProbe m s then .advance
    else .abortNow

/-- `filePathOnPrinter` (print.ts:282) built from the resolved storage. -/
def filePathOnPrinter (storage filename : String) : String :=
  "/" ++ storage ++ "/" ++ filename

/-- The start-phase endpoint sequence (print.ts:290-326), built from the
storage resolved by the upload probe. -/
def prusaStartEndpoints (resolvedStorageForStart encodedStartFilename : String) :
    List String :=
  ["/api/v1/files/" ++ resolvedStorageForStart ++ "/" ++ encodedStartFilename,
   "/api/files/" ++ resolvedStorageForStart ++ "/" ++ encodedStartFilename,
   "/api/v1/job", "/api/job"]

end InventorySystem

namespace InventorySystem

/-- C3: the Prusa upload probe advances to the next (storage × method ×
path-style) candidate exactly when the response status is 404, 410 or 403, or
the method is PUT and the status is 405, 408, 415, 422 or ≥ 500; a 409 (and
any 2xx) is success; any other non-2xx status aborts immediately with the
sanitized upload error; and the storage of the first succeeding candidate is
the one used to build the start-phase paths — e.g. responses `[404, 403, 200]`
select the third candidate's storage. -/
theorem c3_upload_probe_continue_abort_table :
    (∀ (m : HMethod) (s : Nat) (b : String),
      stepDecision m (.resp s b) = .advance ↔
        (s = 404 ∨ s = 410 ∨ s = 403 ∨
          (m = .put ∧ (s = 405 ∨ s = 408 ∨ s = 415 ∨ s = 422 ∨ 500 ≤ s)))) ∧
    (∀ (m : HMethod) (b : String), stepDecision m (.resp 409 b) = .succeed) ∧
    (∀ (m : HMethod) (s : Nat) (b : String), 200 ≤ s → s ≤ 299 →
      stepDecision m (.resp s b) = .succeed) ∧
    (∀ (c : UploadCandidate) (o : FetchOutcome) (rest : List (UploadCandidate × FetchOutcome)),
      (stepDecision c.method o = .advance →
        runUploadProbe ((c, o) :: rest) = runUploadProbe rest) ∧
      (stepDecision c.method o = .succeed →
        runUploadProbe ((c, o) :: rest) = .success c.storage)) ∧
    (∀ (c : UploadCandidate) (s : Nat) (b : String)
      (rest : List (UploadCandidate × FetchOutcome)),
      stepDecision c.method (.resp s b) = .abortNow →
      runUploadProbe ((c, .resp s b) :: rest) = .abort (uploadAbortMessage c s b)) ∧
    (runUploadProbe ((uploadEndpointCandidates (storageCandidates "sdcard") "part.gcode").zip
        [.resp 404 "", .resp 403 "", .resp 200 ""]) = .success "sdcard" ∧
      prusaStartEndpoints "sdcard" "part.gcode" =
        ["/api/v1/files/sdcard/part.gcode", "/api/files/sdcard/part.gcode",
         "/api/v1/job", "/api/job"] ∧
      filePathOnPrinter "sdcard" "part.gcode" = "/sdcard/part.gcode") ∧
    (runUploadProbe ((uploadEndpointCandidates (storageCandidates "sdcard") "part.gcode").zip
        [.resp 404 "", .resp 404 "", .resp 410 "", .resp 403 "", .resp 403 "", .resp 200 ""]) =
      .success "local") := by
  refine ⟨?_, ?_, ?_, ?_, ?_, by decide, by decide⟩
  · intro m s b
    simp only [stepDecision]
    split_ifs with h1 h2
    · refine iff_of_false (by decide) ?_
      simp only [respOk, Bool.or_eq_true, Bool.and_eq_true, beq_iff_eq,
        decide_eq_true_eq] at h1
      rintro (rfl | rfl | rfl | ⟨rfl, (rfl | rfl | rfl | rfl | h5)⟩) <;> omega
    · refine iff_of_true rfl ?_
      cases m <;> simp [shouldContinueProbe] at h2 <;> simp <;> tauto
    · refine iff_of_false (by decide) fun hr => h2 ?_
      rcases hr with rfl | rfl | rfl | ⟨rfl, hput⟩ <;>
        simp [shouldContinueProbe] <;> tauto
  · intro m b
    simp [stepDecision, respOk]
  · intro m s b h1 h2
    have hc : (respOk s || s == 409) = true := by
      simp only [respOk, Bool.or_eq_true, Bool.and_eq_true, beq_iff_eq,
        decide_eq_true_eq]
      omega
    simp [stepDecision, hc]
  · intro c o rest
    cases o with
    | netErr msg => exact ⟨fun _ => rfl, by simp [stepDecision]⟩
    | resp s b =>
      constructor
      · intro h
        simp only [stepDecision] at h
        simp only [runUploadProbe]
        split at h
        · simp at h
        · split at h
          · next h1 h2 => rw [if_neg h1, if_pos h2]
          · simp at h
      · intro h
        simp only [stepDecision] at h
        split at h
        · next h1 =>
          simp only [runUploadProbe]
          rw [if_pos h1]
        · split at h <;> simp at h
  · intro c s b rest h
    simp only [stepDecision] at h
    split at h
    · simp at h
    · split at h
      · simp at h
      · next h1 h2 =>
        simp only [runUploadProbe]
        rw [if_neg h1, if_neg h2]

/-- C3 witness: a PUT candidate answered 500 advances the probe (concrete
instance of the continue/abort table and the loop-step laws). -/
theorem c3_upload_probe_witness :
    stepDecision .put (.resp 500 "oops") = .advance ∧
    stepDecision .post (.resp 500 "oops") = .abortNow ∧
    runUploadProbe [(⟨"/api/v1/files/usb/f", "usb", .post⟩, .resp 418 "teapot")] =
      .abort (uploadAbortMessage ⟨"/api/v1/files/usb/f", "usb", .post⟩ 418 "teapot") := by
  refine ⟨?_, by decide, ?_⟩
  · exact (c3_upload_probe_continue_abort_table.1 .put 500 "oops").mpr
      (Or.inr (Or.inr (Or.inr ⟨rfl, Or.inr (Or.inr (Or.inr (Or.inr (by norm_num))))⟩)))
  · exact (c3_upload_probe_continue_abort_table.2.2.2.2.1
      ⟨"/api/v1/files/usb/f", "usb", .post⟩ 418 "teapot" [] (by decide))

end InventorySystem

namespace InventorySystem

/-! ## Bambu status cache merge (src/src/server/lib/bambu.ts:338-528) -/

/-- `AmsTrayInfo` (bambu.ts:338-353). -/
structure AmsTrayInfo where
  trayId : Int
  trayType : String
  traySubBrands : String
  trayColor : String
  trayInfoIdx : String
  remain : Rat
  isEmpty : Bool
deriving DecidableEq

/-- `BambuCachedStatus` (bambu.ts:355-370). -/
structure BambuCachedStatus where
  gcodeState : String
  nozzleTemp : Option Rat
  targetNozzleTemp : Option Rat
  bedTemp : Option Rat
  targetBedTemp : Option Rat
  chamberTemp : Option Rat
  progress : Option Rat
  remainingTimeMinutes : Option Rat
  fileName : Option String
  filamentType : Option String
  amsTrays : List AmsTrayInfo
  layerNum : Option Rat
  totalLayerNum : Option Rat
  lastUpdated : Nat
deriving DecidableEq

/-- `createEmptyStatus` (bambu.ts:384-401). -/
def createEmptyStatus : BambuCachedStatus :=
  { gcodeState := "UNKNOWN", nozzleTemp := none, targetNozzleTemp := none
    bedTemp := none, targetBedTemp := none, chamberTemp := none
    progress := none, remainingTimeMinutes := none, fileName := none
    filamentType := none, amsTrays := [], layerNum := none
    totalLayerNum := none, lastUpdated := 0 }

/-- `if (typeof report.k === "number") status.f = report.k` as an update of
the previous field value. -/
def updNum (cur : Option Rat) (v : Option JVal) : Option Rat :=
  match v with
  | some (.jnum q) => some q
  | _ => cur

/-- `if (typeof report.k === "string") status.f = report.k`. -/
def updStr (cur : String) (v : Option JVal) : String :=
  match v with
  | some (.jstr s) => s
  | _ => cur

/-- `status.fileName = report.subtask_name || null` under the string guard. -/
def updFileName (cur : Option String) (v : Option JVal) : Option String :=
  match v with
  | some (.jstr s) => if s = "" then none else some s
  | _ => cur

/-- `typeof t.k === "string" ? t.k : ""`. -/
def strFieldD (t : JVal) (k : String) : String :=
  match dotField t k with
  | some (.jstr s) => s
  | _ => ""

/-- `typeof t.k === "number" ? t.k : d`. -/
def numFieldD (t : JVal) (k : String) (d : Rat) : Rat :=
  match dotField t k with
  | some (.jnum q) => q
  | _ => d

/-- `Object.keys(t).filter((k) => k !== "id" && k !== "state")`. -/
def emptyKeysOf (t : JVal) : List String :=
  (jKeys t).filter (fun k => k != "id" && k != "state")

/-- One iteration of the tray-slot loop (bambu.ts:456-476): skipped (`none`)
when `t.id` is not a string, parses to NaN, or is negative. -/
def parseTraySlot (unitId : Int) (t : JVal) : Option AmsTrayInfo :=
  match jStr? (dotField t "id") with
  | none => none
  | some sid =>
    match jsParseInt sid with
    | none => none
    | some slotId =>
      if slotId < 0 then none
      else
        some { trayId := unitId * 4 + slotId
               trayType := strFieldD t "tray_type"
               traySubBrands := strFieldD t "tray_sub_brands"
               trayColor := strFieldD t "tray_color"
               trayInfoIdx := strFieldD t "tray_info_idx"
               remain := numFieldD t "remain" (-1)
               isEmpty := (emptyKeysOf t).isEmpty }

/-- One iteration of the AMS-unit loop (bambu.ts:451-477). -/
def parseAmsUnit (unit : JVal) : List AmsTrayInfo :=
  match jStr? (dotField unit "id") with
  | none => []
  | some uid =>
    match jsParseInt uid with
    | none => []
    | some unitId =>
      if unitId < 0 then []
      else
        match jArr? (dotField unit "tray") with
        | none => []
        | some unitTrays => unitTrays.filterMap (parseTraySlot unitId)

/-- The external-spool entry appended as tray 254 (bambu.ts:479-500). -/
def vtTrayInfo (vt : JVal) : AmsTrayInfo :=
  { trayId := 254
    trayType := strFieldD vt "tray_type"
    traySubBrands := strFieldD vt "tray_sub_brands"
    trayColor := strFieldD vt "tray_color"
    trayInfoIdx := strFieldD vt "tray_info_idx"
    remain := numFieldD vt "remain" (-1)
    isEmpty := (emptyKeysOf vt).isEmpty }

/-- The scalar-field section of `mergeReportIntoStatus` (bambu.ts:407-440);
`now` stands in for `Date.now()`. -/
def mergeScalars (status : BambuCachedStatus) (report : JObj) (now : Nat) :
    BambuCachedStatus :=
  { status with
    gcodeState := updStr status.gcodeState (jLookup report "gcode_state")
    nozzleTemp := updNum status.nozzleTemp (jLookup report "nozzle_temper")
    targetNozzleTemp := updNum status.targetNozzleTemp (jLookup report "nozzle_target_temper")
    bedTemp := updNum status.bedTemp (jLookup report "bed_temper")
    targetBedTemp := updNum status.targetBedTemp (jLookup report "bed_target_temper")
    chamberTemp := updNum status.chamberTemp (jLookup report "chamber_temper")
    progress := updNum status.progress (jLookup report "mc_percent")
    remainingTimeMinutes := updNum status.remainingTimeMinutes (jLookup report "mc_remaining_time")
    fileName := updFileName status.fileName (jLookup report "subtask_name")
    layerNum := updNum status.layerNum (jLookup report "layer_num")
    totalLayerNum := updNum status.totalLayerNum (jLookup report "total_layer_num")
    lastUpdated := now }

/-- The AMS/filament section of `mergeReportIntoStatus` (bambu.ts:442-527).
`amsV`/`vtV` are `report.ams`/`report.vt_tray` filtered by the
`x && typeof x === "object"` guards; in the `tray_now` branch the source
guards only on `vtTray` truthiness, but property reads on truthy non-objects
yield `undefined` and fail the `typeof` check, so the object filter is
extensionally identical there. -/
def amsTraysMerged (st : BambuCachedStatus) (ams : JVal) (vtV : Option JVal) :
    BambuCachedStatus :=
  match jArr? (dotField ams "ams") with
  | some amsUnits =>
    { st with amsTrays :=
        amsUnits.flatMap parseAmsUnit ++
          (match vtV with
           | some vt => [vtTrayInfo vt]
           | none => []) }
  | none => st

def mergeAmsPart (st : BambuCachedStatus) (amsV vtV : Option JVal) :
    BambuCachedStatus :=
  match amsV with
  | some ams =>
    let st2 := amsTraysMerged st ams vtV
    let trayNow := jStr? (dotField ams "tray_now")
    if trayNow = some "254" ∨ trayNow = some "255" then
      match vtV with
      | some vt =>
        match dotField vt "tray_type" with
        | some (.jstr ty) =>
          if ty ≠ "" then { st2 with filamentType := some ty } else st2
        | _ => st2
      | none => st2
    else
      match trayNow with
      | some sNow =>
        if sNow = "" then st2
        else
          match jsParseInt sNow with
          | some trayIndex =>
            match st2.amsTrays.find? (fun t => t.trayId == trayIndex) with
            | some activeTray =>
              if activeTray.trayType ≠ "" then
                { st2 with filamentType := some activeTray.trayType }
              else st2
            | none => st2
          | none => st2
      | none => st2
  | none =>
    match vtV with
    | some vt =>
      match dotField vt "tray_type" with
      | some (.jstr ty) =>
        if ty ≠ "" then { st with filamentType := some ty } else st
      | _ => st
    | none => st

/-- `mergeReportIntoStatus` (bambu.ts:403-528) as a pure state transform:
scalar whitelist first, then the AMS/filament section, mirroring source
order. -/
def mergeReportIntoStatus (status : BambuCachedStatus) (report : JObj) (now : Nat) :
    BambuCachedStatus :=
  mergeAmsPart (mergeScalars status report now)
    (objLike? (jLookup report "ams")) (objLike? (jLookup report "vt_tray"))

/-- The AMS-units array of a report, when present:
`report.ams && typeof report.ams === "object"` and `Array.isArray(report.ams.ams)`. -/
def amsUnitsOf (report : JObj) : Option (List JVal) :=
  match objLike? (jLookup report "ams") with
  | some ams => jArr? (dotField ams "ams")
  | none => none

/-- The `tray_now` pointer of a report, when `report.ams` passes its guard. -/
def amsTrayNowOf (report : JObj) : Option String :=
  match objLike? (jLookup report "ams") with
  | some ams => jStr? (dotField ams "tray_now")
  | none => none

/-- The nonempty `vt_tray.tray_type` string of a report, if any. -/
def vtTrayTypeOf (report : JObj) : Option String :=
  match objLike? (jLookup report "vt_tray") with
  | some vt =>
    match dotField vt "tray_type" with
    | some (.jstr ty) => if ty = "" then none else some ty
    | _ => none
  | none => none

end InventorySystem

namespace InventorySystem

/-- The tray-list assignment only ever writes `amsTrays`. -/
lemma amsTraysMerged_frame (st : BambuCachedStatus) (ams : JVal) (vtV : Option JVal) :
    ∃ trays, amsTraysMerged st ams vtV = { st with amsTrays := trays } := by
  unfold amsTraysMerged
  cases jArr? (dotField ams "ams")
  all_goals exact ⟨_, rfl⟩

/-- With no parseable AMS-units array the tray-list assignment is a no-op. -/
lemma amsTraysMerged_skip (st : BambuCachedStatus) (ams : JVal) (vtV : Option JVal)
    (h : jArr? (dotField ams "ams") = none) :
    amsTraysMerged st ams vtV = st := by
  unfold amsTraysMerged
  rw [h]

/-- The AMS/filament section only ever writes `amsTrays` and `filamentType`. -/
lemma mergeAmsPart_frame (st : BambuCachedStatus) (a v : Option JVal) :
    ∃ trays fil, mergeAmsPart st a v =
      { st with amsTrays := trays, filamentType := fil } := by
  rcases a with _ | ams
  · simp only [mergeAmsPart]
    repeat' split
    all_goals exact ⟨_, _, rfl⟩
  · obtain ⟨t2, h2⟩ := amsTraysMerged_frame st ams v
    simp only [mergeAmsPart, h2]
    repeat' split
    all_goals exact ⟨_, _, rfl⟩

lemma updNum_skip (cur : Option Rat) (v : Option JVal) (h : jNum? v = none) :
    updNum cur v = cur := by
  cases v with
  | none => rfl
  | some x => cases x <;> simp_all [jNum?, updNum]

lemma updStr_skip (cur : String) (v : Option JVal) (h : jStr? v = none) :
    updStr cur v = cur := by
  cases v with
  | none => rfl
  | some x => cases x <;> simp_all [jStr?, updStr]

lemma updFileName_skip (cur : Option String) (v : Option JVal) (h : jStr? v = none) :
    updFileName cur v = cur := by
  cases v with
  | none => rfl
  | some x => cases x <;> simp_all [jStr?, updFileName]

/-- When the report has no parseable AMS-units array, the tray list is kept. -/
lemma mergeAmsPart_amsTrays_skip (st : BambuCachedStatus) (a v : Option JVal)
    (h : (match a with | some ams => jArr? (dotField ams "ams") | none => none)
          = (none : Option (List JVal))) :
    (mergeAmsPart st a v).amsTrays = st.amsTrays := by
  rcases a with _ | ams
  · simp only [mergeAmsPart]
    repeat' split
    all_goals rfl
  · simp only at h
    simp only [mergeAmsPart, amsTraysMerged_skip st ams v h]
    repeat' split
    all_goals rfl

end InventorySystem

namespace InventorySystem

/-- C4: merging a Bambu report into the cached status is an incremental
per-field update: every status field whose corresponding report key is
absent or of the wrong type keeps its previous value — in particular a
partial report never erases the previously known scalar fields, the file
name, the AMS tray list, or the active filament type. -/
theorem c4_merge_report_incremental :
    ∀ (st : BambuCachedStatus) (r : JObj) (now : Nat),
      (jStr? (jLookup r "gcode_state") = none →
        (mergeReportIntoStatus st r now).gcodeState = st.gcodeState) ∧
      (jNum? (jLookup r "nozzle_temper") = none →
        (mergeReportIntoStatus st r now).nozzleTemp = st.nozzleTemp) ∧
      (jNum? (jLookup r "nozzle_target_temper") = none →
        (mergeReportIntoStatus st r now).targetNozzleTemp = st.targetNozzleTemp) ∧
      (jNum? (jLookup r "bed_temper") = none →
        (mergeReportIntoStatus st r now).bedTemp = st.bedTemp) ∧
      (jNum? (jLookup r "bed_target_temper") = none →
        (mergeReportIntoStatus st r now).targetBedTemp = st.targetBedTemp) ∧
      (jNum? (jLookup r "chamber_temper") = none →
        (mergeReportIntoStatus st r now).chamberTemp = st.chamberTemp) ∧
      (jNum? (jLookup r "mc_percent") = none →
        (mergeReportIntoStatus st r now).progress = st.progress) ∧
      (jNum? (jLookup r "mc_remaining_time") = none →
        (mergeReportIntoStatus st r now).remainingTimeMinutes = st.remainingTimeMinutes) ∧
      (jStr? (jLookup r "subtask_name") = none →
        (mergeReportIntoStatus st r now).fileName = st.fileName) ∧
      (jNum? (jLookup r "layer_num") = none →
        (mergeReportIntoStatus st r now).layerNum = st.layerNum) ∧
      (jNum? (jLookup r "total_layer_num") = none →
        (mergeReportIntoStatus st r now).totalLayerNum = st.totalLayerNum) ∧
      (amsUnitsOf r = none →
        (mergeReportIntoStatus st r now).amsTrays = st.amsTrays) ∧
      (objLike? (jLookup r "ams") = none → objLike? (jLookup r "vt_tray") = none →
        (mergeReportIntoStatus st r now).filamentType = st.filamentType) := by
  intro st r now
  obtain ⟨trays, fil, hframe⟩ := mergeAmsPart_frame (mergeScalars st r now)
    (objLike? (jLookup r "ams")) (objLike? (jLookup r "vt_tray"))
  refine ⟨?_, ?_, ?_, ?_, ?_, ?_, ?_, ?_, ?_, ?_, ?_, ?_, ?_⟩
  · intro h
    rw [mergeReportIntoStatus, hframe]
    simpa [mergeScalars] using updStr_skip st.gcodeState _ h
  · intro h
    rw [mergeReportIntoStatus, hframe]
    simpa [mergeScalars] using updNum_skip st.nozzleTemp _ h
  · intro h
    rw [mergeReportIntoStatus, hframe]
    simpa [mergeScalars] using updNum_skip st.targetNozzleTemp _ h
  · intro h
    rw [mergeReportIntoStatus, hframe]
    simpa [mergeScalars] using updNum_skip st.bedTemp _ h
  · intro h
    rw [mergeReportIntoStatus, hframe]
    simpa [mergeScalars] using updNum_skip st.targetBedTemp _ h
  · intro h
    rw [mergeReportIntoStatus, hframe]
    simpa [mergeScalars] using updNum_skip st.chamberTemp _ h
  · intro h
    rw [mergeReportIntoStatus, hframe]
    simpa [mergeScalars] using updNum_skip st.progress _ h
  · intro h
    rw [mergeReportIntoStatus, hframe]
    simpa [mergeScalars] using updNum_skip st.remainingTimeMinutes _ h
  · intro h
    rw [mergeReportIntoStatus, hframe]
    simpa [mergeScalars] using updFileName_skip st.fileName _ h
  · intro h
    rw [mergeReportIntoStatus, hframe]
    simpa [mergeScalars] using updNum_skip st.layerNum _ h
  · intro h
    rw [mergeReportIntoStatus, hframe]
    simpa [mergeScalars] using updNum_skip st.totalLayerNum _ h
  · intro h
    rw [mergeReportIntoStatus]
    rw [mergeAmsPart_amsTrays_skip _ _ _ (by simpa [amsUnitsOf] using h)]
    simp [mergeScalars]
  · intro ha hv
    rw [mergeReportIntoStatus, ha, hv]
    simp [mergeAmsPart, mergeScalars]

/-- A fully-populated status used to witness field preservation. -/
def exampleStatus : BambuCachedStatus :=
  { gcodeState := "RUNNING", nozzleTemp := some 210, targetNozzleTemp := some 220
    bedTemp := some 55, targetBedTemp := some 60, chamberTemp := some 30
    progress := some 41, remainingTimeMinutes := some 12
    fileName := some "a.3mf", filamentType := some "PLA"
    amsTrays := [{ trayId := 0, trayType := "PLA", traySubBrands := ""
                   trayColor := "", trayInfoIdx := "", remain := 50, isEmpty := false }]
    layerNum := some 10, totalLayerNum := some 100, lastUpdated := 3 }

/-- C4 witness: merging a report that carries none of the whitelisted keys
preserves every previously known field of a concrete populated status. -/
theorem c4_merge_report_incremental_witness :
    (mergeReportIntoStatus exampleStatus [("wifi_signal", .jstr "-44dBm")] 9).gcodeState = "RUNNING" ∧
    (mergeReportIntoStatus exampleStatus [("wifi_signal", .jstr "-44dBm")] 9).nozzleTemp = some 210 ∧
    (mergeReportIntoStatus exampleStatus [("wifi_signal", .jstr "-44dBm")] 9).fileName = some "a.3mf" ∧
    (mergeReportIntoStatus exampleStatus [("wifi_signal", .jstr "-44dBm")] 9).amsTrays =
      exampleStatus.amsTrays ∧
    (mergeReportIntoStatus exampleStatus [("wifi_signal", .jstr "-44dBm")] 9).filamentType = some "PLA" := by
  have h := c4_merge_report_incremental exampleStatus [("wifi_signal", .jstr "-44dBm")] 9
  exact ⟨h.1 rfl, h.2.1 rfl, h.2.2.2.2.2.2.2.2.1 rfl,
    h.2.2.2.2.2.2.2.2.2.2.2.1 rfl, h.2.2.2.2.2.2.2.2.2.2.2.2 rfl rfl⟩

end InventorySystem

namespace InventorySystem

/-- The tray-list assignment never changes `filamentType`. -/
lemma mergeAms_st2_filament (st : BambuCachedStatus) (r : JObj) (now : Nat)
    (ams : JVal) (vtV : Option JVal) :
    (amsTraysMerged (mergeScalars st r now) ams vtV).filamentType = st.filamentType := by
  unfold amsTraysMerged
  cases jArr? (dotField ams "ams") <;> simp [mergeScalars]

/-- C7 example report (spec §8): a partial status dump carrying a nozzle
temperature and a single AMS unit with one empty and one PLA tray. -/
def c7ExampleReport : JObj :=
  [("nozzle_temper", .jnum 210),
   ("ams", .jobj
     [("tray_now", .jstr "1"),
      ("ams", .jarr
        [.jobj [("id", .jstr "0"),
                ("tray", .jarr [.jobj [("id", .jstr "0")],
                                .jobj [("id", .jstr "1"), ("tray_type", .jstr "PLA")]])]])])]

/-- C7: AMS tray ids are `unit*4 + slot` (a parsed tray from unit id `u` and
slot id `s` gets global id `u*4+s`, and a tray with no keys besides
`id`/`state` is marked empty); the external spool is tray id 254; a `tray_now`
of `"254"`/`"255"` resolves the active filament from `vt_tray` (falling back
to the previous value), never from the AMS array; and the §8 example report
yields nozzle temperature 210, active filament `"PLA"`, and tray 1 non-empty
(witnessed by the unit-1/slot-2 ⇒ id-6 instance). -/
theorem c7_ams_tray_mapping :
    (∀ (u : Int) (t : JVal) (i : AmsTrayInfo), parseTraySlot u t = some i →
      ∃ sid s, jStr? (dotField t "id") = some sid ∧ jsParseInt sid = some s ∧
        0 ≤ s ∧ i.trayId = u * 4 + s ∧ (i.isEmpty = true ↔ emptyKeysOf t = [])) ∧
    (∀ vt : JVal, (vtTrayInfo vt).trayId = 254) ∧
    (∀ (st : BambuCachedStatus) (r : JObj) (now : Nat),
      amsTrayNowOf r = some "254" ∨ amsTrayNowOf r = some "255" →
      (mergeReportIntoStatus st r now).filamentType =
        (match vtTrayTypeOf r with
         | some ty => some ty
         | none => st.filamentType)) ∧
    (parseAmsUnit (.jobj [("id", .jstr "1"),
        ("tray", .jarr [.jobj [("id", .jstr "2"), ("tray_type", .jstr "PETG")]])]) =
      [{ trayId := 6, trayType := "PETG", traySubBrands := "", trayColor := ""
         trayInfoIdx := "", remain := -1, isEmpty := false }]) ∧
    ((mergeReportIntoStatus createEmptyStatus c7ExampleReport 7).nozzleTemp = some 210 ∧
      (mergeReportIntoStatus createEmptyStatus c7ExampleReport 7).filamentType = some "PLA" ∧
      (mergeReportIntoStatus createEmptyStatus c7ExampleReport 7).amsTrays =
        [{ trayId := 0, trayType := "", traySubBrands := "", trayColor := ""
           trayInfoIdx := "", remain := -1, isEmpty := true },
         { trayId := 1, trayType := "PLA", traySubBrands := "", trayColor := ""
           trayInfoIdx := "", remain := -1, isEmpty := false }]) := by
  refine ⟨?_, fun vt => rfl, ?_, by decide, by decide, by decide, by decide⟩
  · intro u t i h
    cases h1 : jStr? (dotField t "id") with
    | none => simp [parseTraySlot, h1] at h
    | some sid =>
      cases h2 : jsParseInt sid with
      | none => simp [parseTraySlot, h1, h2] at h
      | some slotId =>
        by_cases h3 : slotId < 0
        · simp [parseTraySlot, h1, h2, h3] at h
        · simp only [parseTraySlot, h1, h2, if_neg h3, Option.some.injEq] at h
          refine ⟨sid, slotId, rfl, h2, by omega, ?_, ?_⟩
          · rw [← h]
          · rw [← h]
            simp [List.isEmpty_iff]
  · intro st r now ham
    cases hA : objLike? (jLookup r "ams") with
    | none => simp [amsTrayNowOf, hA] at ham
    | some ams =>
      have hnow : jStr? (dotField ams "tray_now") = some "254" ∨
          jStr? (dotField ams "tray_now") = some "255" := by
        simpa [amsTrayNowOf, hA] using ham
      rw [mergeReportIntoStatus]
      simp only [mergeAmsPart, hA]
      rw [if_pos hnow]
      cases hV : objLike? (jLookup r "vt_tray") with
      | none =>
        simp only [vtTrayTypeOf, hV]
        exact mergeAms_st2_filament st r now ams none
      | some vt =>
        cases hT : dotField vt "tray_type" with
        | none =>
          simp only [vtTrayTypeOf, hV, hT]
          exact mergeAms_st2_filament st r now ams (some vt)
        | some tv =>
          cases tv with
          | jstr ty =>
            by_cases hty : ty = ""
            · subst hty
              simp only [vtTrayTypeOf, hV, hT, if_pos rfl]
              simp only [ne_eq, not_true_eq_false, if_false, reduceIte]
              exact mergeAms_st2_filament st r now ams (some vt)
            · simp only [vtTrayTypeOf, hV, hT, if_neg hty]
              simp [hty]
          | jnum q =>
            simp only [vtTrayTypeOf, hV, hT]
            exact mergeAms_st2_filament st r now ams (some vt)
          | jbool b =>
            simp only [vtTrayTypeOf, hV, hT]
            exact mergeAms_st2_filament st r now ams (some vt)
          | jnull =>
            simp only [vtTrayTypeOf, hV, hT]
            exact mergeAms_st2_filament st r now ams (some vt)
          | jarr xs =>
            simp only [vtTrayTypeOf, hV, hT]
            exact mergeAms_st2_filament st r now ams (some vt)
          | jobj fields =>
            simp only [vtTrayTypeOf, hV, hT]
            exact mergeAms_st2_filament st r now ams (some vt)

end InventorySystem

namespace InventorySystem

/-- A report whose `tray_now` points at the external spool, with a PETG
`vt_tray` present. -/
def c7VtReport : JObj :=
  [("ams", .jobj [("tray_now", .jstr "254"), ("ams", .jarr [])]),
   ("vt_tray", .jobj [("tray_type", .jstr "PETG")])]

/-- C7 witness: the unit-id-1 / slot-id-2 tray gets global id 6 = 1*4+2, and
with `tray_now = "254"` the filament type comes from `vt_tray`. -/
theorem c7_ams_tray_mapping_witness :
    (∃ sid s, jStr? (dotField (JVal.jobj [("id", .jstr "2"), ("tray_type", .jstr "PETG")]) "id")
          = some sid ∧
        jsParseInt sid = some s ∧ 0 ≤ s ∧ (6 : Int) = 1 * 4 + s ∧
        (false = true ↔ emptyKeysOf (JVal.jobj [("id", .jstr "2"), ("tray_type", .jstr "PETG")]) = [])) ∧
    (mergeReportIntoStatus createEmptyStatus c7VtReport 3).filamentType = some "PETG" := by
  constructor
  · exact c7_ams_tray_mapping.1 1 (.jobj [("id", .jstr "2"), ("tray_type", .jstr "PETG")])
      { trayId := 6, trayType := "PETG", traySubBrands := "", trayColor := ""
        trayInfoIdx := "", remain := -1, isEmpty := false } (by decide)
  · have h := c7_ams_tray_mapping.2.2.1 createEmptyStatus c7VtReport 3 (Or.inl rfl)
    rw [h]
    rfl

end InventorySystem

namespace InventorySystem

/-! ## Print-job state machine (src/src/server/api/routers/print.ts:907-1396) -/

/-- `GcodePrintJobStatus` values. -/
inductive JobStatus where
  | STORED
  | DISPATCHED
  | DISPATCH_FAILED
deriving DecidableEq

/-- The job-row fields every dispatch attempt updates. -/
structure JobRow where
  status : JobStatus
  dispatchResponse : Option String
  dispatchError : Option String
deriving DecidableEq

/-- A fresh row as created by each route before dispatching
(`status: "STORED"`, no response/error). -/
def newStoredRow : JobRow :=
  { status := .STORED, dispatchResponse := none, dispatchError := none }

/-- The outcome of `dispatchToPrinter` observed by the route: the returned
`details` string, or the thrown error's message. -/
inductive DispatchOutcome where
  | ok (details : String)
  | err (msg : String)
deriving DecidableEq

/-- The five dispatch attempts of the pipeline, one per route code path. -/
inductive AttemptKind where
  | uploadStore
  | startStored
  | printReuse
  | printNew
  | reprint
deriving DecidableEq

/-- JS `` `Re-used existing file. ${details ?? ""}`.trim() ``. -/
def reuseResponse (d : String) : String := jsTrim ("Re-used existing file. " ++ d)

/-- JS `` `Reprint. ${details ?? ""}`.trim() ``. -/
def reprintResponse (d : String) : String := jsTrim ("Reprint. " ++ d)

/-- The single `prisma.gcodePrintJob.update` each attempt performs after its
dispatch returns, straight from each route's success/catch blocks
(print.ts:983-1001, 1081-1099, 1188-1206, 1252-1269, 1372-1389). -/
def finalize : AttemptKind → JobRow → DispatchOutcome → JobRow
  | .uploadStore, row, .ok d =>
    { row with status := .STORED, dispatchResponse := some d, dispatchError := none }
  | .uploadStore, row, .err m =>
    { row with status := .DISPATCH_FAILED, dispatchError := some (sanitizeDbText m) }
  | .startStored, row, .ok d =>
    { row with status := .DISPATCHED, dispatchResponse := some d, dispatchError := none }
  | .startStored, row, .err m =>
    { row with status := .DISPATCH_FAILED, dispatchError := some (sanitizeDbText m) }
  | .printReuse, row, .ok d =>
    { row with status := .DISPATCHED, dispatchResponse := some (reuseResponse d) }
  | .printReuse, row, .err m =>
    { row with status := .DISPATCH_FAILED, dispatchError := some (sanitizeDbText m) }
  | .printNew, row, .ok d =>
    { row with status := .DISPATCHED, dispatchResponse := some d }
  | .printNew, row, .err m =>
    { row with status := .DISPATCH_FAILED, dispatchError := some (sanitizeDbText m) }
  | .reprint, row, .ok d =>
    { row with status := .DISPATCHED, dispatchResponse := some (reprintResponse d) }
  | .reprint, row, .err m =>
    { row with status := .DISPATCH_FAILED, dispatchError := some (sanitizeDbText m) }

/-- `startStoredPrint`'s update, applied to whatever row the id resolves to
(the route does not filter on the current status). -/
def startStoredPrintFinalize (row : JobRow) (o : DispatchOutcome) : JobRow :=
  finalize .startStored row o

end InventorySystem

namespace InventorySystem

/-- C1 (counterexample): `uploadAndStore` (mode `upload_only`) writes
`status: "STORED"` back on a successful upload (print.ts:983-990), so the job
is left in STORED — refuting the claim that every dispatch attempt, including
`upload_only`, ends in DISPATCHED or DISPATCH_FAILED. -/
theorem c1_upload_only_success_stays_stored :
    (finalize .uploadStore newStoredRow
        (.ok "Uploaded file to Prusa printer storage (local) without starting print.")).status
      = .STORED ∧
    (finalize .uploadStore newStoredRow
        (.ok "Uploaded file to Prusa printer storage (local) without starting print.")).status
      ≠ .DISPATCHED ∧
    (finalize .uploadStore newStoredRow
        (.ok "Uploaded file to Prusa printer storage (local) without starting print.")).status
      ≠ .DISPATCH_FAILED := by
  decide

/-- C1 (amended): every failed dispatch attempt leaves the job in
DISPATCH_FAILED, every successful attempt other than `uploadAndStore`'s
`upload_only` attempt leaves it DISPATCHED, and the only way a row ends the
attempt in STORED is `uploadAndStore` succeeding — which deliberately keeps
the job STORED, awaiting `startStoredPrint`.  Each attempt's fields are
written by a single update (`finalize` is one state transition), which is the
claim's atomicity. -/
theorem c1_dispatch_status_outcomes :
    (∀ (k : AttemptKind) (row : JobRow) (m : String),
      (finalize k row (.err m)).status = .DISPATCH_FAILED) ∧
    (∀ (k : AttemptKind) (row : JobRow) (d : String), k ≠ .uploadStore →
      (finalize k row (.ok d)).status = .DISPATCHED) ∧
    (∀ (row : JobRow) (d : String),
      (finalize .uploadStore row (.ok d)).status = .STORED) ∧
    (∀ (k : AttemptKind) (row : JobRow) (o : DispatchOutcome),
      (finalize k row o).status = .STORED → k = .uploadStore ∧ ∃ d, o = .ok d) := by
  refine ⟨fun k row m => ?_, fun k row d hk => ?_, fun row d => rfl, fun k row o h => ?_⟩
  · cases k <;> rfl
  · cases k <;> simp_all [finalize]
  · cases k <;> cases o <;> simp_all [finalize]

/-- C1 witness: a failing reprint attempt ends DISPATCH_FAILED and a
successful `startStoredPrint` attempt ends DISPATCHED. -/
theorem c1_dispatch_status_outcomes_witness :
    (finalize .reprint newStoredRow (.err "Reprint failed: boom")).status = .DISPATCH_FAILED ∧
    (finalize .startStored newStoredRow (.ok "Start command sent")).status = .DISPATCHED :=
  ⟨c1_dispatch_status_outcomes.1 .reprint newStoredRow "Reprint failed: boom",
   c1_dispatch_status_outcomes.2.1 .startStored newStoredRow "Start command sent" (by decide)⟩

/-- C2 (counterexample): `startStoredPrint` fetches the job by id with no
status filter (print.ts:1017-1025) and unconditionally writes the attempt's
outcome, so invoked on a row that is already DISPATCHED with a failing
dispatch it moves the same record DISPATCHED → DISPATCH_FAILED. -/
theorem c2_start_stored_overwrites_dispatched :
    (finalize .printNew newStoredRow (.ok "d")).status = .DISPATCHED ∧
    (startStoredPrintFinalize (finalize .printNew newStoredRow (.ok "d"))
        (.err "boom")).status = .DISPATCH_FAILED ∧
    (startStoredPrintFinalize (finalize .printNew newStoredRow (.ok "d"))
        (.err "boom")).status ≠ .DISPATCHED := by
  decide

/-- The successive rows a record passes through under repeated
`startStoredPrint` attempts. -/
def runStarts : JobRow → List DispatchOutcome → List JobRow
  | r, [] => [r]
  | r, o :: rest => r :: runStarts (startStoredPrintFinalize r o) rest

/-- The status history of one record: created STORED, finalized once by its
creating route, then hit by any number of `startStoredPrint` attempts. -/
def jobTrace (k : AttemptKind) (o : DispatchOutcome)
    (startOps : List DispatchOutcome) : List JobStatus :=
  (newStoredRow :: runStarts (finalize k newStoredRow o) startOps).map JobRow.status

/-- Every `startStoredPrint` attempt in the sequence hits the record while it
is still STORED. -/
def GuardedStarts : JobRow → List DispatchOutcome → Prop
  | _, [] => True
  | r, o :: rest => r.status = .STORED ∧ GuardedStarts (startStoredPrintFinalize r o) rest

/-- The transitions the claim allows: no change, or STORED to a terminal. -/
def allowedStep (s t : JobStatus) : Prop :=
  s = t ∨ (s = .STORED ∧ (t = .DISPATCHED ∨ t = .DISPATCH_FAILED))

lemma runStarts_head (r : JobRow) (ops : List DispatchOutcome) :
    (runStarts r ops).head? = some r := by
  cases ops <;> rfl

lemma runStarts_chain (ops : List DispatchOutcome) :
    ∀ r : JobRow, GuardedStarts r ops →
      ((runStarts r ops).map JobRow.status).Chain' allowedStep := by
  induction ops with
  | nil => intro r _; simp [runStarts]
  | cons o rest ih =>
    intro r hg
    rw [runStarts, List.map_cons, List.chain'_cons']
    refine ⟨?_, ih _ hg.2⟩
    intro b hb
    simp only [List.head?_map, runStarts_head, Option.map_some', Option.mem_def,
      Option.some.injEq] at hb
    subst hb
    refine Or.inr ⟨hg.1, ?_⟩
    cases o with
    | ok d => exact Or.inl rfl
    | err m => exact Or.inr rfl

/-- C2 (amended): provided every `startStoredPrint` attempt targets a record
still in STORED, a record's status history only ever steps STORED→DISPATCHED
or STORED→DISPATCH_FAILED (a reprint creates a new row, modelled as a fresh
trace); without that guard the property fails, since `startStoredPrint` does
not check the current status (see the counterexample). -/
theorem c2_status_transitions_guarded :
    ∀ (k : AttemptKind) (o : DispatchOutcome) (startOps : List DispatchOutcome),
      GuardedStarts (finalize k newStoredRow o) startOps →
      (jobTrace k o startOps).Chain' allowedStep := by
  intro k o startOps hg
  rw [jobTrace, List.map_cons, List.chain'_cons']
  refine ⟨?_, runStarts_chain startOps _ hg⟩
  intro b hb
  simp only [List.head?_map, runStarts_head, Option.map_some', Option.mem_def,
    Option.some.injEq] at hb
  subst hb
  show allowedStep newStoredRow.status (finalize k newStoredRow o).status
  cases k <;> cases o <;> simp [allowedStep, finalize, newStoredRow]

/-- C2 witness: an `uploadAndStore` success followed by one guarded
`startStoredPrint` success yields the trace STORED, STORED, DISPATCHED, whose
steps are all allowed. -/
theorem c2_status_transitions_guarded_witness :
    (jobTrace .uploadStore (.ok "stored") [.ok "started"]).Chain' allowedStep :=
  c2_status_transitions_guarded .uploadStore (.ok "stored") [.ok "started"]
    ⟨rfl, trivial⟩

end InventorySystem

namespace InventorySystem

/-! ## Bambu MQTT connection pool (src/src/server/lib/s3.ts:116-312) -/

/-- `PoolEntry` (s3.ts:116-122); the live client handle is external. -/
structure PoolEntry where
  printerName : String
  ipAddress : String
  authToken : String
  connecting : Bool
deriving DecidableEq

/-- The pool `Map` as an insertion-ordered association list. -/
abbrev Pool := List (String × PoolEntry)

/-- `Map.get`. -/
def assocFind : List (String × PoolEntry) → String → Option PoolEntry
  | [], _ => none
  | (k, v) :: rest, key => if k = key then some v else assocFind rest key

/-- `Map.has`. -/
def poolHas (p : Pool) (k : String) : Bool := (assocFind p k).isSome

/-- `Map.set`: replace in place when the key exists, else append. -/
def poolSet : Pool → String → PoolEntry → Pool
  | [], k, v => [(k, v)]
  | (k', v') :: rest, k, v =>
    if k' = k then (k, v) :: rest else (k', v') :: poolSet rest k v

/-- `Map.delete`. -/
def poolDelete : Pool → String → Pool
  | [], _ => []
  | (k', v) :: rest, k =>
    if k' = k then poolDelete rest k else (k', v) :: poolDelete rest k

/-- The externally visible connection actions taken by the pool. -/
inductive PoolEvent where
  | connect (serial : String)
  | disconnect (serial : String)
deriving DecidableEq

/-- A printer row of the BAMBU roster read from the database. -/
structure RosterPrinter where
  name : String
  ipAddress : String
  authToken : Option String
  serialNumber : Option String
deriving DecidableEq

/-- JS truthiness of a nullable string: `null` and `""` are falsy. -/
def jsTruthy? : Option String → Option String
  | some s => if s = "" then none else some s
  | none => none

/-- `connectPrinter` (s3.ts:155-234): a no-op when the serial already has an
entry (the re-entrancy guard); otherwise inserts a `connecting` entry and
opens a connection. -/
def connectPrinter (p : Pool) (name ip token serial : String) :
    Pool × List PoolEvent :=
  if poolHas p serial then (p, [])
  else (poolSet p serial ⟨name, ip, token, true⟩, [.connect serial])

/-- `disconnectPrinter` (s3.ts:236-246). -/
def disconnectPrinter (p : Pool) (serial : String) : Pool × List PoolEvent :=
  match assocFind p serial with
  | some _ => (poolDelete p serial, [.disconnect serial])
  | none => (p, [])

structure SyncState where
  pool : Pool
  events : List PoolEvent
  dbSerials : List String
deriving DecidableEq

/-- One iteration of the roster loop of `syncBambuMqttPool` (s3.ts:273-301):
skip printers with falsy token or serial; reconnect when the IP or auth token
changed; connect new serials; leave matching entries untouched. -/
def syncStepEff (acc : SyncState) (pr : RosterPrinter) (token serial : String) :
    SyncState :=
  let db' := acc.dbSerials ++ [serial]
  match assocFind acc.pool serial with
  | some existing =>
    if existing.ipAddress ≠ pr.ipAddress ∨ existing.authToken ≠ token then
      let d := disconnectPrinter acc.pool serial
      let c := connectPrinter d.1 pr.name pr.ipAddress token serial
      { pool := c.1, events := acc.events ++ d.2 ++ c.2, dbSerials := db' }
    else
      { acc with dbSerials := db' }
  | none =>
    let c := connectPrinter acc.pool pr.name pr.ipAddress token serial
    { pool := c.1, events := acc.events ++ c.2, dbSerials := db' }

def syncStep (acc : SyncState) (pr : RosterPrinter) : SyncState :=
  match jsTruthy? pr.authToken, jsTruthy? pr.serialNumber with
  | some token, some serial => syncStepEff acc pr token serial
  | _, _ => acc

/-- The removal loop of `syncBambuMqttPool` (s3.ts:303-308), iterating the
serials present when the loop starts. -/
def removeStaleAux : List String → Pool → List String → Pool × List PoolEvent
  | [], p, _ => (p, [])
  | k :: ks, p, db =>
    if k ∈ db then removeStaleAux ks p db
    else
      let d := disconnectPrinter p k
      let r := removeStaleAux ks d.1 db
      (r.1, d.2 ++ r.2)

/-- `syncBambuMqttPool` (s3.ts:259-312) as a pure function of the roster and
the current pool, returning the new pool and the connect/disconnect actions
performed. -/
def syncBambuMqttPool (roster : List RosterPrinter) (p : Pool) :
    Pool × List PoolEvent :=
  let s := roster.foldl syncStep { pool := p, events := [], dbSerials := [] }
  let r := removeStaleAux (s.pool.map Prod.fst) s.pool s.dbSerials
  (r.1, s.events ++ r.2)

/-- The serials the sync loop actually processes. -/
def effSerials (roster : List RosterPrinter) : List String :=
  roster.filterMap fun pr =>
    match jsTruthy? pr.authToken, jsTruthy? pr.serialNumber with
    | some _, some serial => some serial
    | _, _ => none

end InventorySystem

namespace InventorySystem

lemma assocFind_poolSet_self (p : Pool) (k : String) (v : PoolEntry) :
    assocFind (poolSet p k v) k = some v := by
  induction p with
  | nil => simp [poolSet, assocFind]
  | cons e rest ih =>
    rcases e with ⟨k0, v0⟩
    by_cases h : k0 = k
    · simp [poolSet, h, assocFind]
    · simp [poolSet, h, assocFind, ih]

lemma assocFind_poolSet_other (p : Pool) (k : String) (v : PoolEntry) (k' : String)
    (h : k' ≠ k) : assocFind (poolSet p k v) k' = assocFind p k' := by
  induction p with
  | nil => simp [poolSet, assocFind, Ne.symm h]
  | cons e rest ih =>
    rcases e with ⟨k0, v0⟩
    by_cases he : k0 = k
    · subst he
      simp only [poolSet, if_pos rfl, assocFind, if_neg (Ne.symm h)]
    · simp only [poolSet, if_neg he, assocFind]
      by_cases he' : k0 = k'
      · simp [he']
      · simp [he', ih]

lemma assocFind_eq_none_iff (p : Pool) (k : String) :
    assocFind p k = none ↔ k ∉ p.map Prod.fst := by
  induction p with
  | nil => simp [assocFind]
  | cons e rest ih =>
    rcases e with ⟨k0, v0⟩
    by_cases h : k0 = k
    · simp [assocFind, h]
    · rw [assocFind, if_neg h, ih]
      simp only [List.map_cons, List.mem_cons, not_or]
      exact ⟨fun hn => ⟨fun hk => h hk.symm, hn⟩, fun hn => hn.2⟩

lemma assocFind_poolDelete_self (p : Pool) (k : String) :
    assocFind (poolDelete p k) k = none := by
  induction p with
  | nil => rfl
  | cons e rest ih =>
    rcases e with ⟨k0, v0⟩
    by_cases h : k0 = k
    · simpa [poolDelete, h] using ih
    · simpa [poolDelete, h, assocFind] using ih

lemma assocFind_poolDelete_other (p : Pool) (k k' : String) (h : k' ≠ k) :
    assocFind (poolDelete p k) k' = assocFind p k' := by
  induction p with
  | nil => rfl
  | cons e rest ih =>
    rcases e with ⟨k0, v0⟩
    by_cases he : k0 = k
    · rw [poolDelete, if_pos he, ih, assocFind, if_neg]
      rw [he]
      exact Ne.symm h
    · rw [poolDelete, if_neg he, assocFind, assocFind]
      by_cases he' : k0 = k'
      · simp [he']
      · simp [he', ih]

lemma poolDelete_of_absent (p : Pool) (k : String) (h : assocFind p k = none) :
    poolDelete p k = p := by
  induction p with
  | nil => rfl
  | cons e rest ih =>
    rcases e with ⟨k0, v0⟩
    rw [assocFind] at h
    by_cases he : k0 = k
    · rw [if_pos he] at h
      exact absurd h (by simp)
    · rw [if_neg he] at h
      rw [poolDelete, if_neg he, ih h]

lemma poolDelete_sublist (p : Pool) (k : String) : (poolDelete p k).Sublist p := by
  induction p with
  | nil => simp [poolDelete]
  | cons e rest ih =>
    rcases e with ⟨k0, v0⟩
    by_cases h : k0 = k
    · rw [poolDelete, if_pos h]
      exact ih.cons _
    · rw [poolDelete, if_neg h]
      exact ih.cons₂ _

lemma keys_poolSet_mem (p : Pool) (k : String) (v : PoolEntry)
    (h : poolHas p k = true) : (poolSet p k v).map Prod.fst = p.map Prod.fst := by
  induction p with
  | nil => simp [poolHas, assocFind] at h
  | cons e rest ih =>
    rcases e with ⟨k0, v0⟩
    by_cases he : k0 = k
    · simp [poolSet, he]
    · simp only [poolHas, assocFind, if_neg he] at h
      simp [poolSet, he, ih h, poolHas]

lemma keys_poolSet_new (p : Pool) (k : String) (v : PoolEntry)
    (h : poolHas p k = false) :
    (poolSet p k v).map Prod.fst = p.map Prod.fst ++ [k] := by
  induction p with
  | nil => simp [poolSet]
  | cons e rest ih =>
    rcases e with ⟨k0, v0⟩
    by_cases he : k0 = k
    · simp [poolHas, assocFind, he] at h
    · simp only [poolHas, assocFind, if_neg he] at h
      simp [poolSet, he, ih h]

lemma nodup_keys_poolSet (p : Pool) (k : String) (v : PoolEntry)
    (h : (p.map Prod.fst).Nodup) : ((poolSet p k v).map Prod.fst).Nodup := by
  cases hh : poolHas p k with
  | true => rw [keys_poolSet_mem p k v hh]; exact h
  | false =>
    rw [keys_poolSet_new p k v hh]
    have hk : k ∉ p.map Prod.fst := by
      rw [← assocFind_eq_none_iff]
      cases hfind : assocFind p k with
      | none => rfl
      | some e =>
        rw [poolHas, hfind] at hh
        simp at hh
    refine List.Nodup.append h (List.nodup_singleton k) ?_
    intro a ha hb
    rw [List.mem_singleton] at hb
    subst hb
    exact hk ha

lemma nodup_keys_poolDelete (p : Pool) (k : String)
    (h : (p.map Prod.fst).Nodup) : ((poolDelete p k).map Prod.fst).Nodup :=
  h.sublist ((poolDelete_sublist p k).map Prod.fst)

end InventorySystem

namespace InventorySystem

lemma connectPrinter_find_other (p : Pool) (n i t s k : String) (h : k ≠ s) :
    assocFind (connectPrinter p n i t s).1 k = assocFind p k := by
  unfold connectPrinter
  by_cases hh : poolHas p s
  · rw [if_pos hh]
  · rw [if_neg hh]
    exact assocFind_poolSet_other p s _ k h

lemma connectPrinter_find_self_new (p : Pool) (n i t s : String)
    (h : poolHas p s = false) :
    assocFind (connectPrinter p n i t s).1 s = some ⟨n, i, t, true⟩ := by
  unfold connectPrinter
  rw [if_neg (by simp [h]), ]
  exact assocFind_poolSet_self p s _

lemma disconnectPrinter_pool (p : Pool) (s : String) :
    (disconnectPrinter p s).1 = poolDelete p s := by
  unfold disconnectPrinter
  cases h : assocFind p s with
  | some e => rfl
  | none => exact (poolDelete_of_absent p s h).symm

lemma disconnectPrinter_find_other (p : Pool) (s k : String) (h : k ≠ s) :
    assocFind (disconnectPrinter p s).1 k = assocFind p k := by
  rw [disconnectPrinter_pool]
  exact assocFind_poolDelete_other p s k h

lemma nodup_keys_connectPrinter (p : Pool) (n i t s : String)
    (h : (p.map Prod.fst).Nodup) :
    (((connectPrinter p n i t s).1).map Prod.fst).Nodup := by
  unfold connectPrinter
  by_cases hh : poolHas p s
  · rwa [if_pos hh]
  · rw [if_neg hh]
    exact nodup_keys_poolSet p s _ h

lemma nodup_keys_disconnectPrinter (p : Pool) (s : String)
    (h : (p.map Prod.fst).Nodup) :
    (((disconnectPrinter p s).1).map Prod.fst).Nodup := by
  rw [disconnectPrinter_pool]
  exact nodup_keys_poolDelete p s h

lemma syncStep_skip (acc : SyncState) (pr : RosterPrinter)
    (h : jsTruthy? pr.authToken = none ∨ jsTruthy? pr.serialNumber = none) :
    syncStep acc pr = acc := by
  unfold syncStep
  rcases h with h | h
  · rw [h]
  · rw [h]
    cases jsTruthy? pr.authToken <;> rfl

lemma syncStep_eff (acc : SyncState) (pr : RosterPrinter) (t s : String)
    (ht : jsTruthy? pr.authToken = some t) (hs : jsTruthy? pr.serialNumber = some s) :
    syncStep acc pr = syncStepEff acc pr t s := by
  unfold syncStep
  rw [ht, hs]

lemma syncStep_eff_db (acc : SyncState) (pr : RosterPrinter) (t s : String)
    (ht : jsTruthy? pr.authToken = some t) (hs : jsTruthy? pr.serialNumber = some s) :
    (syncStep acc pr).dbSerials = acc.dbSerials ++ [s] := by
  rw [syncStep_eff acc pr t s ht hs]
  simp only [syncStepEff]
  cases assocFind acc.pool s with
  | some existing =>
    by_cases hc : existing.ipAddress ≠ pr.ipAddress ∨ existing.authToken ≠ t
    · simp only [if_pos hc]
    · simp only [if_neg hc]
  | none => rfl

lemma syncStep_good (acc : SyncState) (pr : RosterPrinter) (t s : String)
    (ht : jsTruthy? pr.authToken = some t) (hs : jsTruthy? pr.serialNumber = some s) :
    ∃ e, assocFind (syncStep acc pr).pool s = some e ∧
      e.ipAddress = pr.ipAddress ∧ e.authToken = t := by
  rw [syncStep_eff acc pr t s ht hs]
  simp only [syncStepEff]
  cases hfind : assocFind acc.pool s with
  | some existing =>
    by_cases hc : existing.ipAddress ≠ pr.ipAddress ∨ existing.authToken ≠ t
    · simp only [if_pos hc]
      refine ⟨⟨pr.name, pr.ipAddress, t, true⟩, ?_, rfl, rfl⟩
      have hdel : poolHas (disconnectPrinter acc.pool s).1 s = false := by
        rw [disconnectPrinter_pool, poolHas, assocFind_poolDelete_self]
        rfl
      exact connectPrinter_find_self_new _ pr.name pr.ipAddress t s hdel
    · simp only [if_neg hc]
      push_neg at hc
      exact ⟨existing, hfind, hc.1, hc.2⟩
  | none =>
    have hnew : poolHas acc.pool s = false := by rw [poolHas, hfind]; rfl
    exact ⟨⟨pr.name, pr.ipAddress, t, true⟩,
      connectPrinter_find_self_new _ pr.name pr.ipAddress t s hnew, rfl, rfl⟩

lemma syncStep_frame (acc : SyncState) (pr : RosterPrinter) (t s : String)
    (ht : jsTruthy? pr.authToken = some t) (hs : jsTruthy? pr.serialNumber = some s)
    (k : String) (hk : k ≠ s) :
    assocFind (syncStep acc pr).pool k = assocFind acc.pool k := by
  rw [syncStep_eff acc pr t s ht hs]
  simp only [syncStepEff]
  cases hfind : assocFind acc.pool s with
  | some existing =>
    by_cases hc : existing.ipAddress ≠ pr.ipAddress ∨ existing.authToken ≠ t
    · simp only [if_pos hc]
      rw [connectPrinter_find_other _ _ _ _ _ _ hk, disconnectPrinter_find_other _ _ _ hk]
    · simp only [if_neg hc]
  | none =>
    exact connectPrinter_find_other _ _ _ _ _ _ hk

lemma syncStep_noop (acc : SyncState) (pr : RosterPrinter) (t s : String)
    (e : PoolEntry) (ht : jsTruthy? pr.authToken = some t)
    (hs : jsTruthy? pr.serialNumber = some s)
    (hfind : assocFind acc.pool s = some e)
    (hip : e.ipAddress = pr.ipAddress) (htok : e.authToken = t) :
    syncStep acc pr = { acc with dbSerials := acc.dbSerials ++ [s] } := by
  rw [syncStep_eff acc pr t s ht hs]
  have hcond : ¬(e.ipAddress ≠ pr.ipAddress ∨ e.authToken ≠ t) := by
    push_neg
    exact ⟨hip, htok⟩
  simp only [syncStepEff, hfind, if_neg hcond]

lemma nodup_keys_syncStep (acc : SyncState) (pr : RosterPrinter)
    (h : (acc.pool.map Prod.fst).Nodup) :
    (((syncStep acc pr).pool).map Prod.fst).Nodup := by
  cases ht : jsTruthy? pr.authToken with
  | none => rw [syncStep_skip acc pr (Or.inl ht)]; exact h
  | some t =>
    cases hs : jsTruthy? pr.serialNumber with
    | none => rw [syncStep_skip acc pr (Or.inr hs)]; exact h
    | some s =>
      rw [syncStep_eff acc pr t s ht hs]
      simp only [syncStepEff]
      cases assocFind acc.pool s with
      | some existing =>
        by_cases hc : existing.ipAddress ≠ pr.ipAddress ∨ existing.authToken ≠ t
        · simp only [if_pos hc]
          exact nodup_keys_connectPrinter _ _ _ _ _
            (nodup_keys_disconnectPrinter _ _ h)
        · simp only [if_neg hc]
          exact h
      | none => exact nodup_keys_connectPrinter _ _ _ _ _ h

end InventorySystem

namespace InventorySystem

lemma effSerials_cons_eff (pr : RosterPrinter) (rest : List RosterPrinter)
    (t s : String) (ht : jsTruthy? pr.authToken = some t)
    (hs : jsTruthy? pr.serialNumber = some s) :
    effSerials (pr :: rest) = s :: effSerials rest := by
  simp [effSerials, List.filterMap_cons, ht, hs]

lemma effSerials_cons_skip (pr : RosterPrinter) (rest : List RosterPrinter)
    (h : jsTruthy? pr.authToken = none ∨ jsTruthy? pr.serialNumber = none) :
    effSerials (pr :: rest) = effSerials rest := by
  rcases h with h | h
  · cases hs : jsTruthy? pr.serialNumber <;>
      simp [effSerials, List.filterMap_cons, h, hs]
  · cases ht : jsTruthy? pr.authToken <;>
      simp [effSerials, List.filterMap_cons, h, ht]

lemma mem_effSerials (roster : List RosterPrinter) (pr : RosterPrinter)
    (t s : String) (hmem : pr ∈ roster) (ht : jsTruthy? pr.authToken = some t)
    (hs : jsTruthy? pr.serialNumber = some s) : s ∈ effSerials roster := by
  rw [effSerials, List.mem_filterMap]
  exact ⟨pr, hmem, by rw [ht, hs]⟩

lemma effSerials_tail_nodup (pr : RosterPrinter) (rest : List RosterPrinter)
    (h : (effSerials (pr :: rest)).Nodup) : (effSerials rest).Nodup := by
  cases ht : jsTruthy? pr.authToken with
  | none => rwa [effSerials_cons_skip pr rest (Or.inl ht)] at h
  | some t =>
    cases hs : jsTruthy? pr.serialNumber with
    | none => rwa [effSerials_cons_skip pr rest (Or.inr hs)] at h
    | some s =>
      rw [effSerials_cons_eff pr rest t s ht hs] at h
      exact h.of_cons

lemma foldl_syncStep_db (roster : List RosterPrinter) :
    ∀ acc : SyncState,
      (roster.foldl syncStep acc).dbSerials = acc.dbSerials ++ effSerials roster := by
  induction roster with
  | nil => intro acc; simp [effSerials]
  | cons pr rest ih =>
    intro acc
    rw [List.foldl_cons]
    cases ht : jsTruthy? pr.authToken with
    | none =>
      rw [syncStep_skip acc pr (Or.inl ht), ih, effSerials_cons_skip pr rest (Or.inl ht)]
    | some t =>
      cases hs : jsTruthy? pr.serialNumber with
      | none =>
        rw [syncStep_skip acc pr (Or.inr hs), ih, effSerials_cons_skip pr rest (Or.inr hs)]
      | some s =>
        rw [ih, syncStep_eff_db acc pr t s ht hs,
          effSerials_cons_eff pr rest t s ht hs]
        simp

lemma foldl_syncStep_frame (roster : List RosterPrinter) :
    ∀ (acc : SyncState) (k : String), k ∉ effSerials roster →
      assocFind (roster.foldl syncStep acc).pool k = assocFind acc.pool k := by
  induction roster with
  | nil => intro acc k _; rfl
  | cons pr rest ih =>
    intro acc k hk
    rw [List.foldl_cons]
    cases ht : jsTruthy? pr.authToken with
    | none =>
      rw [syncStep_skip acc pr (Or.inl ht)]
      exact ih acc k (by rwa [effSerials_cons_skip pr rest (Or.inl ht)] at hk)
    | some t =>
      cases hs : jsTruthy? pr.serialNumber with
      | none =>
        rw [syncStep_skip acc pr (Or.inr hs)]
        exact ih acc k (by rwa [effSerials_cons_skip pr rest (Or.inr hs)] at hk)
      | some s =>
        rw [effSerials_cons_eff pr rest t s ht hs, List.mem_cons, not_or] at hk
        rw [ih (syncStep acc pr) k hk.2]
        exact syncStep_frame acc pr t s ht hs k hk.1

lemma foldl_syncStep_good (roster : List RosterPrinter)
    (hnd : (effSerials roster).Nodup) :
    ∀ (acc : SyncState) (pr : RosterPrinter) (t s : String), pr ∈ roster →
      jsTruthy? pr.authToken = some t → jsTruthy? pr.serialNumber = some s →
      ∃ e, assocFind (roster.foldl syncStep acc).pool s = some e ∧
        e.ipAddress = pr.ipAddress ∧ e.authToken = t := by
  induction roster with
  | nil => intro acc pr t s hmem; exact absurd hmem (List.not_mem_nil pr)
  | cons pr0 rest ih =>
    intro acc pr t s hmem ht hs
    rw [List.foldl_cons]
    rcases List.mem_cons.mp hmem with rfl | hmem'
    · have hnd' := hnd
      rw [effSerials_cons_eff pr rest t s ht hs, List.nodup_cons] at hnd'
      rw [foldl_syncStep_frame rest (syncStep acc pr) s hnd'.1]
      exact syncStep_good acc pr t s ht hs
    · exact ih (effSerials_tail_nodup pr0 rest hnd) (syncStep acc pr0) pr t s hmem' ht hs

lemma foldl_syncStep_noop (roster : List RosterPrinter) :
    ∀ acc : SyncState,
      (∀ pr ∈ roster, ∀ t s, jsTruthy? pr.authToken = some t →
        jsTruthy? pr.serialNumber = some s →
        ∃ e, assocFind acc.pool s = some e ∧
          e.ipAddress = pr.ipAddress ∧ e.authToken = t) →
      roster.foldl syncStep acc =
        { acc with dbSerials := acc.dbSerials ++ effSerials roster } := by
  induction roster with
  | nil => intro acc _; simp [effSerials]
  | cons pr0 rest ih =>
    intro acc hall
    rw [List.foldl_cons]
    cases ht : jsTruthy? pr0.authToken with
    | none =>
      rw [syncStep_skip acc pr0 (Or.inl ht), effSerials_cons_skip pr0 rest (Or.inl ht)]
      exact ih acc (fun pr hm => hall pr (List.mem_cons_of_mem pr0 hm))
    | some t =>
      cases hs : jsTruthy? pr0.serialNumber with
      | none =>
        rw [syncStep_skip acc pr0 (Or.inr hs), effSerials_cons_skip pr0 rest (Or.inr hs)]
        exact ih acc (fun pr hm => hall pr (List.mem_cons_of_mem pr0 hm))
      | some s =>
        obtain ⟨e, hfind, hip, htok⟩ := hall pr0 (List.mem_cons_self pr0 rest) t s ht hs
        rw [syncStep_noop acc pr0 t s e ht hs hfind hip htok]
        rw [ih { acc with dbSerials := acc.dbSerials ++ [s] }
          (fun pr hm t' s' ht' hs' => hall pr (List.mem_cons_of_mem pr0 hm) t' s' ht' hs')]
        rw [effSerials_cons_eff pr0 rest t s ht hs]
        simp

lemma removeStaleAux_noop (ks : List String) :
    ∀ (p : Pool) (db : List String), (∀ k ∈ ks, k ∈ db) →
      removeStaleAux ks p db = (p, []) := by
  induction ks with
  | nil => intro p db _; rfl
  | cons k ks ih =>
    intro p db h
    rw [removeStaleAux, if_pos (h k (List.mem_cons_self k ks))]
    exact ih p db (fun k' hk' => h k' (List.mem_cons_of_mem k hk'))

lemma removeStaleAux_find_in_db (ks : List String) :
    ∀ (p : Pool) (db : List String) (s : String), s ∈ db →
      assocFind (removeStaleAux ks p db).1 s = assocFind p s := by
  induction ks with
  | nil => intro p db s _; rfl
  | cons k ks ih =>
    intro p db s hs
    by_cases hk : k ∈ db
    · rw [removeStaleAux, if_pos hk]
      exact ih p db s hs
    · rw [removeStaleAux, if_neg hk]
      have hne : s ≠ k := fun hh => hk (hh ▸ hs)
      rw [ih _ db s hs, disconnectPrinter_find_other p k s hne]

lemma removeStaleAux_keys (ks : List String) :
    ∀ (p : Pool) (db : List String) (k : String),
      k ∈ ((removeStaleAux ks p db).1).map Prod.fst →
      k ∈ db ∨ (k ∈ p.map Prod.fst ∧ k ∉ ks) := by
  induction ks with
  | nil => intro p db k hk; exact Or.inr ⟨hk, List.not_mem_nil k⟩
  | cons k0 ks ih =>
    intro p db k hk
    by_cases h0 : k0 ∈ db
    · rw [removeStaleAux, if_pos h0] at hk
      rcases ih p db k hk with h | ⟨hp, hks⟩
      · exact Or.inl h
      · by_cases hkk : k = k0
        · exact Or.inl (hkk ▸ h0)
        · exact Or.inr ⟨hp, by simp [List.mem_cons, hkk, hks]⟩
    · rw [removeStaleAux, if_neg h0] at hk
      rcases ih _ db k hk with h | ⟨hp, hks⟩
      · exact Or.inl h
      · have hkk : k ≠ k0 := by
          intro hh
          subst hh
          rw [disconnectPrinter_pool] at hp
          have := (assocFind_eq_none_iff (poolDelete p k) k).mp
            (assocFind_poolDelete_self p k)
          exact this hp
        have hp' : k ∈ p.map Prod.fst := by
          rw [disconnectPrinter_pool] at hp
          exact List.Sublist.mem hp ((poolDelete_sublist p k0).map Prod.fst)
        exact Or.inr ⟨hp', by simp [List.mem_cons, hkk, hks]⟩

lemma nodup_keys_foldl (roster : List RosterPrinter) :
    ∀ acc : SyncState, (acc.pool.map Prod.fst).Nodup →
      (((roster.foldl syncStep acc).pool).map Prod.fst).Nodup := by
  induction roster with
  | nil => intro acc h; exact h
  | cons pr rest ih =>
    intro acc h
    rw [List.foldl_cons]
    exact ih (syncStep acc pr) (nodup_keys_syncStep acc pr h)

lemma nodup_keys_removeStaleAux (ks : List String) :
    ∀ (p : Pool) (db : List String), (p.map Prod.fst).Nodup →
      (((removeStaleAux ks p db).1).map Prod.fst).Nodup := by
  induction ks with
  | nil => intro p db h; exact h
  | cons k ks ih =>
    intro p db h
    by_cases hk : k ∈ db
    · rw [removeStaleAux, if_pos hk]
      exact ih p db h
    · rw [removeStaleAux, if_neg hk]
      exact ih _ db (nodup_keys_disconnectPrinter p k h)

end InventorySystem

namespace InventorySystem

lemma sync_eq (roster : List RosterPrinter) (q : Pool) :
    syncBambuMqttPool roster q =
      ((removeStaleAux (((roster.foldl syncStep ⟨q, [], []⟩).pool).map Prod.fst)
          (roster.foldl syncStep ⟨q, [], []⟩).pool
          (roster.foldl syncStep ⟨q, [], []⟩).dbSerials).1,
        (roster.foldl syncStep ⟨q, [], []⟩).events ++
          (removeStaleAux (((roster.foldl syncStep ⟨q, [], []⟩).pool).map Prod.fst)
            (roster.foldl syncStep ⟨q, [], []⟩).pool
            (roster.foldl syncStep ⟨q, [], []⟩).dbSerials).2) := rfl

/-- A BAMBU roster in which two printers (distinct IPs, as the DB's
uniqueness constraint requires) share one serial number — the schema has no
uniqueness on `serialNumber`. -/
def c5DupRoster : List RosterPrinter :=
  [{ name := "a", ipAddress := "10.0.0.1", authToken := some "t", serialNumber := some "S" },
   { name := "b", ipAddress := "10.0.0.2", authToken := some "t", serialNumber := some "S" }]

/-- C5 (counterexample): with the duplicate-serial roster, the second
`syncBambuMqttPool` call with the roster unchanged re-creates the entry for
serial `"S"` while it is present (each pass sees the other row's IP in the
pool and reconnects), so "no entry re-created while present" fails for that
roster. -/
theorem c5_dup_serial_resync_churns :
    (syncBambuMqttPool c5DupRoster ((syncBambuMqttPool c5DupRoster []).1)).2 ≠ [] ∧
    PoolEvent.connect "S" ∈
      (syncBambuMqttPool c5DupRoster ((syncBambuMqttPool c5DupRoster []).1)).2 := by
  decide

/-- C5 (amended): the pool always holds at most one entry per serial
(`connectPrinter` and `syncBambuMqttPool` preserve key uniqueness), and for
every roster whose effective (token- and serial-bearing) rows have pairwise
distinct serial numbers, a second `syncBambuMqttPool` with the roster
unchanged leaves the pool identical and performs no connect or disconnect —
entries are only replaced when the printer's IP or auth token changed, and
entries whose serial left the roster are removed; with duplicate serials in
the roster the no-churn part fails (see the counterexample). -/
theorem c5_pool_unique_and_sync_idempotent :
    (∀ (p : Pool) (n i t s : String), (p.map Prod.fst).Nodup →
      (((connectPrinter p n i t s).1).map Prod.fst).Nodup) ∧
    (∀ (roster : List RosterPrinter) (p : Pool), (p.map Prod.fst).Nodup →
      (((syncBambuMqttPool roster p).1).map Prod.fst).Nodup) ∧
    (∀ (roster : List RosterPrinter) (p : Pool), (effSerials roster).Nodup →
      syncBambuMqttPool roster ((syncBambuMqttPool roster p).1) =
        ((syncBambuMqttPool roster p).1, [])) := by
  refine ⟨nodup_keys_connectPrinter, ?_, ?_⟩
  · intro roster p h
    rw [sync_eq]
    exact nodup_keys_removeStaleAux _ _ _ (nodup_keys_foldl roster ⟨p, [], []⟩ h)
  · intro roster p hnd
    have hdb1 : (roster.foldl syncStep (⟨p, [], []⟩ : SyncState)).dbSerials
        = effSerials roster := by
      rw [foldl_syncStep_db roster ⟨p, [], []⟩]
      rfl
    have hpool1 : (syncBambuMqttPool roster p).1 =
        (removeStaleAux (((roster.foldl syncStep ⟨p, [], []⟩).pool).map Prod.fst)
          (roster.foldl syncStep ⟨p, [], []⟩).pool
          (roster.foldl syncStep ⟨p, [], []⟩).dbSerials).1 := rfl
    have hgood : ∀ pr ∈ roster, ∀ t s, jsTruthy? pr.authToken = some t →
        jsTruthy? pr.serialNumber = some s →
        ∃ e, assocFind (syncBambuMqttPool roster p).1 s = some e ∧
          e.ipAddress = pr.ipAddress ∧ e.authToken = t := by
      intro pr hm t s ht hs
      obtain ⟨e, hfind, hip, htok⟩ :=
        foldl_syncStep_good roster hnd ⟨p, [], []⟩ pr t s hm ht hs
      refine ⟨e, ?_, hip, htok⟩
      rw [hpool1, removeStaleAux_find_in_db _ _ _ s ?_, hfind]
      rw [hdb1]
      exact mem_effSerials roster pr t s hm ht hs
    have hkeys : ∀ k ∈ ((syncBambuMqttPool roster p).1).map Prod.fst,
        k ∈ effSerials roster := by
      intro k hk
      rw [hpool1] at hk
      rcases removeStaleAux_keys _ _ _ k hk with h | ⟨hp1, hks⟩
      · rwa [hdb1] at h
      · exact absurd hp1 hks
    have hnoop1 : roster.foldl syncStep
          (⟨(syncBambuMqttPool roster p).1, [], []⟩ : SyncState) =
        ⟨(syncBambuMqttPool roster p).1, [], effSerials roster⟩ := by
      have h := foldl_syncStep_noop roster ⟨(syncBambuMqttPool roster p).1, [], []⟩
        (fun pr hm t s ht hs => hgood pr hm t s ht hs)
      simpa using h
    rw [sync_eq roster ((syncBambuMqttPool roster p).1), hnoop1]
    rw [removeStaleAux_noop _ _ _ hkeys]
    rfl

/-- A well-formed roster: distinct serials, distinct IPs. -/
def c5OkRoster : List RosterPrinter :=
  [{ name := "a", ipAddress := "10.0.0.1", authToken := some "t", serialNumber := some "S1" },
   { name := "b", ipAddress := "10.0.0.2", authToken := some "u", serialNumber := some "S2" }]

/-- C5 witness: on a concrete distinct-serial roster the second sync is a
no-op, and key uniqueness is preserved by a concrete connect and sync. -/
theorem c5_pool_unique_and_sync_idempotent_witness :
    (((connectPrinter [("S9", ⟨"n", "10.9.9.9", "w", false⟩)] "m" "10.1.1.1" "x" "S1").1).map
        Prod.fst).Nodup ∧
    (((syncBambuMqttPool c5OkRoster []).1).map Prod.fst).Nodup ∧
    syncBambuMqttPool c5OkRoster ((syncBambuMqttPool c5OkRoster []).1) =
      ((syncBambuMqttPool c5OkRoster []).1, []) :=
  ⟨c5_pool_unique_and_sync_idempotent.1 [("S9", ⟨"n", "10.9.9.9", "w", false⟩)]
      "m" "10.1.1.1" "x" "S1" (by decide),
   c5_pool_unique_and_sync_idempotent.2.1 c5OkRoster [] (by decide),
   c5_pool_unique_and_sync_idempotent.2.2 c5OkRoster [] (by decide)⟩

end InventorySystem
